import Mathlib

/-!
# veepn-proxy: startup sequence, API client and endpoint refresh

A shallow embedding of `src/main.go` (functions `parse_args`, `run`, the refresh
callback, the `auth` closure, `printCountries`) and of the package `veclient`
(`messages.go`, `randutils.go`, `veclient.go`).

Conventions of the embedding.

* A Go `error` value is its message (`GoError`); a nil error is `none`.
* A Go function returning `(T, error)` returns `Except GoError T`.
* A Go runtime panic is an explicit result (`GoResult.panicked`), tagged with
  the expression that raised it.
* A method with a pointer receiver takes the receiver state and returns the
  state it leaves behind. The mutex `Mux` serialises the methods, which is what
  a sequential history of calls expresses; it has no field here.
* Everything outside the repository's sources (HTTP exchange, URL parsing,
  proxy dialer construction, DNS bootstrap, file system, listener) is an input
  collected in `Env`.
-/

namespace VeepnProxy

/-- A Go `error` value, identified with its message. -/
abbrev GoError := String

/-- Expressions of the sources that can raise a Go runtime panic. -/
inductive PanicSite where
  /-- Index `Errors[0]` of an API response (veclient.go:130, 152, 175). -/
  | errorsIndex
  /-- Index `e.Addresses[0]` inside `NetAddr` (messages.go:56). -/
  | netAddrIndex
  /-- Index `ips.Addresses[0]` in `run` (main.go:271). -/
  | addressesIndex
  /-- Index `addrs[0]` of the bootstrap result (main.go:174). -/
  | addrsIndex
  /-- Type assertion `pxDialer.(ContextDialer)` (main.go:150). -/
  | dialerAssertion
  deriving DecidableEq, Repr

/-- Result of a Go call that either returns or panics. -/
inductive GoResult (α : Type) where
  | returned (value : α)
  | panicked (site : PanicSite)
  deriving DecidableEq, Repr

/-! ## Collaborator values (standard library and files outside `src/`) -/

/-- A parsed `*url.URL`. -/
structure URL where
  Scheme : String
  Host : String
  deriving DecidableEq, Repr

/-- A value implementing `ContextDialer`, described by how `run` builds it. -/
inductive ContextDialer where
  /-- Go `&net.Dialer{Timeout: 30s, KeepAlive: 30s}` (main.go:132). -/
  | netDialer
  /-- The dialer `xproxy.FromURL(proxyURL, forward)` hands back (main.go:145). -/
  | fromURL (proxyURL : URL) (forward : ContextDialer)
  /-- Go `NewFixedDialer(address, next)` (main.go:177). -/
  | fixedDialer (address : String) (next : ContextDialer)
  deriving DecidableEq, Repr

/-- Go `tls.Config` with the two fields `run` sets (main.go:183). -/
structure TLSConfig where
  ServerName : String
  InsecureSkipVerify : Bool
  deriving DecidableEq, Repr

/-- Go `http.Transport` with the fields `run` sets (main.go:188); durations in
seconds. `DialTLSContext` dials with its dialer and wraps the connection with
`tls.Client` under its configuration. -/
structure Transport where
  DialContext : ContextDialer
  DialTLSContext : ContextDialer × TLSConfig
  ForceAttemptHTTP2 : Bool
  MaxIdleConns : Nat
  IdleConnTimeout : Nat
  TLSHandshakeTimeout : Nat
  ExpectContinueTimeout : Nat
  deriving DecidableEq, Repr

/-- A non-nil `http.RoundTripper`. -/
inductive RoundTripper where
  /-- The package variable `http.DefaultTransport`. -/
  | DefaultTransport
  /-- A transport value built by the caller. -/
  | custom (t : Transport)
  deriving DecidableEq, Repr

/-- The cookie jar type of the client (`StdJar`, declared outside `src/`). -/
structure StdJar where
  cookies : List String
  deriving DecidableEq, Repr

/-- Go `http.Client` with the two fields the client sets or leaves nil. -/
structure HTTPClient where
  Transport : Option RoundTripper
  Jar : StdJar
  deriving DecidableEq, Repr

/-- Go `func (c *Client) transport() RoundTripper`: the transport the HTTP
client sends through, `DefaultTransport` when the field is nil. -/
def HTTPClient.transport (c : HTTPClient) : RoundTripper :=
  match c.Transport with
  | some t => t
  | none => RoundTripper.DefaultTransport

/-- The request `rpcCall` sends: method, URL, form values, headers. -/
structure Request where
  Method : String
  Endpoint : String
  Form : List (String × String)
  Header : List (String × String)
  deriving DecidableEq, Repr

/-- What the outside world does with one request of `rpcCall`, for a response
decoded into `α`. -/
inductive HTTPOutcome (α : Type) where
  /-- The call of `http.NewRequestWithContext` fails. -/
  | requestError (err : GoError)
  /-- The call of `c.httpClient.Do(req)` fails (transport error, timeout, cancellation). -/
  | doError (err : GoError)
  /-- A response arrives. `decoded` is what `decoder.Decode(res)` leaves in
  `res`, `decodeErr` its error; `Status` and `Header` are as printed in the
  error message for a status other than 200. -/
  | response (StatusCode : Nat) (Status : String) (Header : String)
      (decoded : α) (decodeErr : Option GoError)
  deriving DecidableEq, Repr

namespace veclient

/-! ## messages.go -/

/-- Go `type Error struct` (messages.go:21). -/
structure Error where
  Name : String
  Message : String
  deriving DecidableEq, Repr, Inhabited

/-- Go `type VERegisterDeviceData struct` (messages.go:17). -/
structure VERegisterDeviceData where
  AccessToken : String
  deriving DecidableEq, Repr, Inhabited

/-- Go `type VERegisterDeviceResponse struct` (messages.go:26). -/
structure VERegisterDeviceResponse where
  Data : VERegisterDeviceData
  Status : Bool
  Errors : List Error
  deriving DecidableEq, Repr, Inhabited

/-- Go `type VEGeoEntry struct` (messages.go:32). -/
structure VEGeoEntry where
  ProxyType : Int
  Name : String
  Region : String
  CountryCode : String
  deriving DecidableEq, Repr, Inhabited

/-- Go `type VEGeoListResponse struct` (messages.go:39); `Geos` is `Data.Geos`. -/
structure VEGeoListResponse where
  Geos : List VEGeoEntry
  Status : Bool
  Errors : List Error
  deriving DecidableEq, Repr, Inhabited

/-- Go `type VEIPEntry struct` (messages.go:47). There is no hostname field. -/
structure VEIPEntry where
  Username : String
  Password : String
  Protocol : String
  Port : Int
  Addresses : List String
  deriving DecidableEq, Repr, Inhabited

/-- Go `type VEDiscoverResponse struct` (messages.go:59). -/
structure VEDiscoverResponse where
  Data : VEIPEntry
  Status : Bool
  Errors : List Error
  deriving DecidableEq, Repr, Inhabited

/-- The zero value of `VERegisterDeviceResponse` (`var regRes ...`). -/
def VERegisterDeviceResponse.zero : VERegisterDeviceResponse :=
  { Data := { AccessToken := "" }, Status := false, Errors := [] }

/-- The zero value of `VEGeoListResponse` (`var geoListRes ...`). -/
def VEGeoListResponse.zero : VEGeoListResponse :=
  { Geos := [], Status := false, Errors := [] }

/-- The zero value of `VEDiscoverResponse` (`var discoverRes ...`). -/
def VEDiscoverResponse.zero : VEDiscoverResponse :=
  { Data := { Username := "", Password := "", Protocol := "", Port := 0, Addresses := [] },
    Status := false, Errors := [] }

/-- Go `fmt.Sprintf("%d", n)` for an `int`. -/
def Sprintf_d (n : Int) : String :=
  match n with
  | Int.ofNat m => Nat.repr m
  | Int.negSucc m => "-" ++ Nat.repr (m + 1)

/-- Go `net.JoinHostPort`: a host holding a colon is put in brackets. -/
def JoinHostPort (host port : String) : String :=
  if host.toList.contains ':' then "[" ++ host ++ "]:" ++ port
  else host ++ ":" ++ port

/-- Go `func (e *VEIPEntry) NetAddr() string` (messages.go:55):
`net.JoinHostPort(e.Addresses[0], fmt.Sprintf("%d", e.Port))`. -/
def VEIPEntry.NetAddr (e : VEIPEntry) : GoResult String :=
  match e.Addresses with
  | [] => GoResult.panicked PanicSite.netAddrIndex
  | a :: _ => GoResult.returned (JoinHostPort a (Sprintf_d e.Port))

/-! ## randutils.go -/

/-- One lower-case hexadecimal digit. -/
def hexDigit (n : Nat) : Char :=
  "0123456789abcdef".toList.getD (n % 16) '0'

/-- Go `hex.EncodeToString` over bytes given as naturals (taken modulo 256). -/
def hexEncodeToString (b : List Nat) : String :=
  String.mk (b.flatMap fun x => [hexDigit ((x % 256) / 16), hexDigit ((x % 256) % 16)])

/-- An `io.Reader` asked to fill a buffer of the given length: the bytes it
stored, or its error. -/
abbrev Reader := Nat → Except GoError (List Nat)

/-- The buffer `b := make([]byte, length)` after `rng.Read(b)` stored the bytes
`stored` at its start: at most `length` of them fit, and the positions that
were not written keep their zero. -/
def readBuffer (length : Nat) (stored : List Nat) : List Nat :=
  stored.take length ++ List.replicate (length - stored.length) 0

/-- Go `func randomHexString(rng io.Reader, length int) (string, error)`
(randutils.go:8): the whole buffer of `length` bytes is encoded. -/
def randomHexString (rng : Reader) (length : Nat) : Except GoError String :=
  match rng length with
  | Except.error err => Except.error err
  | Except.ok stored => Except.ok (hexEncodeToString (readBuffer length stored))

/-! ## veclient.go -/

/-- Go `DEVICE_ID_BYTES` (veclient.go:19). -/
def DEVICE_ID_BYTES : Nat := 20

/-- Go `type VEEndpoints struct` (veclient.go:23). -/
structure VEEndpoints where
  RegisterDevice : String
  GeoList : String
  Discover : String
  deriving DecidableEq, Repr

/-- Go `var DefaultVEEndpoints` (veclient.go:29). -/
def DefaultVEEndpoints : VEEndpoints :=
  { RegisterDevice := "https://antpeak.com/api/launch/",
    GeoList := "https://antpeak.com/api/location/list/",
    Discover := "https://antpeak.com/api/server/" }

/-- Go `type VESettings struct` (veclient.go:35). -/
structure VESettings where
  AppVersion : String
  Platform : String
  TimeZone : String
  DeviceName : String
  UserAgent : String
  Endpoints : VEEndpoints
  deriving DecidableEq, Repr

/-- Go `var DefaultVESettings` (veclient.go:44). -/
def DefaultVESettings : VESettings :=
  { AppVersion := "2.6.0",
    Platform := "Chrome",
    TimeZone := "+0300",
    DeviceName := "Opera 85",
    UserAgent := "Mozilla/5.0 (Windows NT 10.0; Win64; x64) AppleWebKit/537.36 (KHTML, like Gecko) Chrome/88.0.4324.192 Safari/537.36 OPR/74.0.3911.232",
    Endpoints := DefaultVEEndpoints }

/-- Go `type VEClient struct` (veclient.go:53), without `Mux` and `rng`. -/
structure VEClient where
  httpClient : HTTPClient
  Settings : VESettings
  AccessToken : String
  DeviceID : String
  DeviceUsername : String
  DevicePassword : String
  deriving DecidableEq, Repr

/-- Go `func NewVEClient(transport http.RoundTripper) (*VEClient, error)`
(veclient.go:70). `transport = none` is a nil argument; `RandomSource` and
`NewStdJar` are declared outside `src/` and are inputs. The `Transport` field
of the `http.Client` literal is commented out in the source, so it stays nil. -/
def NewVEClient (transport : Option RoundTripper) (RandomSource : Reader)
    (NewStdJar : Except GoError StdJar) : Except GoError VEClient :=
  let _transport : RoundTripper :=
    match transport with
    | none => RoundTripper.DefaultTransport
    | some t => t
  let rng := RandomSource
  match randomHexString rng DEVICE_ID_BYTES with
  | Except.error err => Except.error err
  | Except.ok device_id =>
    match NewStdJar with
    | Except.error err => Except.error err
    | Except.ok jar =>
      Except.ok
        { httpClient := { Transport := none, Jar := jar },
          Settings := DefaultVESettings,
          AccessToken := "",
          DeviceID := device_id,
          DeviceUsername := "",
          DevicePassword := "" }

/-- Go `func (c *VEClient) populateRequest(req *http.Request)` (veclient.go:195). -/
def VEClient.populateRequest (c : VEClient) (req : Request) : Request :=
  if c.AccessToken.length ≠ 0 then
    { req with Header := req.Header ++ [("Authorization", "Bearer " ++ c.AccessToken)] }
  else req

/-- Go `func (c *VEClient) rpcCall(ctx, endpoint, params, res) error`
(veclient.go:202). Returns the content of `res` afterwards and the error. -/
def VEClient.rpcCall {α : Type} (c : VEClient) (endpoint : String)
    (params : List (String × String)) (world : Request → HTTPOutcome α) (res : α) :
    α × Option GoError :=
  let req : Request := { Method := "POST", Endpoint := endpoint, Form := params, Header := [] }
  let req := c.populateRequest req
  let req := { req with Header := req.Header ++
    [("Content-Type", "application/x-www-form-urlencoded"), ("Accept", "application/json")] }
  match world req with
  | HTTPOutcome.requestError err => (res, some err)
  | HTTPOutcome.doError err => (res, some err)
  | HTTPOutcome.response StatusCode Status Header decoded decodeErr =>
    match decodeErr with
    | some err => (decoded, some err)
    | none =>
      if StatusCode ≠ 200 then
        (decoded, some ("bad http status: " ++ Status ++ ", headers: " ++ Header))
      else (decoded, none)

/-- Go `func (c *VEClient) RegisterDevice(ctx) error` (veclient.go:114). -/
def VEClient.RegisterDevice (c : VEClient)
    (world : Request → HTTPOutcome VERegisterDeviceResponse) :
    VEClient × GoResult (Option GoError) :=
  let (regRes, err) := c.rpcCall c.Settings.Endpoints.RegisterDevice
    [("appVersion", c.Settings.AppVersion), ("platform", c.Settings.Platform),
     ("timeZone", c.Settings.TimeZone), ("deviceName", c.Settings.DeviceName),
     ("udid", c.DeviceID)] world VERegisterDeviceResponse.zero
  if regRes.Status ≠ true then
    match regRes.Errors with
    | [] => (c, GoResult.panicked PanicSite.errorsIndex)
    | e :: _ =>
      (c, GoResult.returned
        (some ("API responded with error message: msg=\"" ++ e.Message ++ "\"")))
  else
    match err with
    | some err => (c, GoResult.returned (some err))
    | none => ({ c with AccessToken := regRes.Data.AccessToken }, GoResult.returned none)

/-- Go `func (c *VEClient) GeoList(ctx) ([]VEGeoEntry, error)` (veclient.go:142). -/
def VEClient.GeoList (c : VEClient) (world : Request → HTTPOutcome VEGeoListResponse) :
    VEClient × GoResult (Except GoError (List VEGeoEntry)) :=
  let (geoListRes, err) := c.rpcCall c.Settings.Endpoints.GeoList [] world VEGeoListResponse.zero
  if geoListRes.Status ≠ true then
    match geoListRes.Errors with
    | [] => (c, GoResult.panicked PanicSite.errorsIndex)
    | e :: _ =>
      (c, GoResult.returned
        (Except.error ("API responded with error message: msg=\"" ++ e.Message ++ "\"")))
  else
    match err with
    | some err => (c, GoResult.returned (Except.error err))
    | none => (c, GoResult.returned (Except.ok geoListRes.Geos))

/-- Go `func (c *VEClient) Discover(ctx, requestedGeo) (*VEIPEntry, error)`
(veclient.go:162). -/
def VEClient.Discover (c : VEClient) (requestedGeo : String)
    (world : Request → HTTPOutcome VEDiscoverResponse) :
    VEClient × GoResult (Except GoError VEIPEntry) :=
  let (discoverRes, err) := c.rpcCall c.Settings.Endpoints.Discover
    [("region", requestedGeo), ("protocol", "https"), ("type", "0")] world
    VEDiscoverResponse.zero
  if discoverRes.Status ≠ true then
    match discoverRes.Errors with
    | [] => (c, GoResult.panicked PanicSite.errorsIndex)
    | e :: _ =>
      (c, GoResult.returned (Except.error (e.Message ++ " (" ++ requestedGeo ++ ")")))
  else
    match err with
    | some err => (c, GoResult.returned (Except.error err))
    | none =>
      ({ c with DeviceUsername := discoverRes.Data.Username,
                DevicePassword := discoverRes.Data.Password },
       GoResult.returned (Except.ok discoverRes.Data))

/-- Go `func (c *VEClient) GetProxyCredentials() (string, string)`
(veclient.go:188). -/
def VEClient.GetProxyCredentials (c : VEClient) : String × String :=
  (c.DeviceUsername, c.DevicePassword)

/-- Go `func (c *VEClient) ResetCookies() error` (veclient.go:100); the jar's
`Reset` is declared outside `src/` and is an input. -/
def VEClient.ResetCookies (c : VEClient) (Reset : StdJar → StdJar × Option GoError) :
    VEClient × Option GoError :=
  let (jar, err) := Reset c.httpClient.Jar
  ({ c with httpClient := { c.httpClient with Jar := jar } }, err)

end veclient

open veclient

/-! ## main.go -/

/-- Go `API_DOMAIN` (main.go:25). -/
def API_DOMAIN : String := "antpeak.com"

/-- Go `type CLIArgs struct` (main.go:44); durations are `time.Duration` counts. -/
structure CLIArgs where
  country : String
  listCountries : Bool
  bindAddress : String
  verbosity : Int
  timeout : Int
  showVersion : Bool
  proxy : String
  apiAddress : String
  bootstrapDNS : String
  refresh : Int
  refreshRetry : Int
  certChainWorkaround : Bool
  caFile : String
  serviceInstall : Bool
  serviceUninstall : Bool
  serviceName : String
  deriving DecidableEq, Repr

/-- The flag defaults registered in `init` (main.go:65), in nanoseconds. -/
def CLIArgs.defaults : CLIArgs :=
  { country := "nl", listCountries := false, bindAddress := "127.0.0.1:18090",
    verbosity := 20, timeout := 10 * 1000000000, showVersion := false, proxy := "",
    apiAddress := "", bootstrapDNS := "", refresh := 4 * 3600 * 1000000000,
    refreshRetry := 5 * 1000000000, certChainWorkaround := true, caFile := "",
    serviceInstall := false, serviceUninstall := false, serviceName := "" }

/-- Severity of a `CondLogger` call. -/
inductive Level where
  | Info
  | Error
  | Critical
  deriving DecidableEq, Repr

/-- An `x509.CertPool`, as the certificates it holds. -/
abbrev CertPool := List String

/-- The bootstrap resolver `NewResolver` hands back. -/
structure Resolver where
  ResolveA : String → List String

/-- The arguments of `NewProxyDialer` (main.go:271) other than the `auth`
closure, which is always `auth` below. -/
structure ProxyDialer where
  address : String
  endpointIP : String
  certChainWorkaround : Bool
  caPool : Option CertPool
  next : ContextDialer
  deriving DecidableEq, Repr

/-- What the main goroutine does that is visible outside `run`: output, log
calls, and calls to collaborators, in program order. -/
inductive Event where
  /-- Go `fmt.Fprintln(os.Stderr, line)`. -/
  | stderr (line : String)
  /-- Go `flag.PrintDefaults()`. -/
  | PrintDefaults
  /-- Go `fmt.Println(line)`. -/
  | stdout (line : String)
  /-- A call of `mainLogger` with its format string and rendered arguments. -/
  | log (level : Level) (format : String) (args : List String)
  | RegisterDialerType (scheme : String)
  | urlParse (raw : String)
  | FromURL (proxyURL : URL) (forward : ContextDialer)
  | NewResolver (url : String) (timeout : Int)
  | ResolveA (domain : String)
  | NewFixedDialer (address : String) (next : ContextDialer)
  | NewVEClient (transport : Option RoundTripper)
  | RegisterDevice
  | GeoList
  | Discover (requestedGeo : String)
  | runTicker (refresh retry : Int)
  | ReadFile (path : String)
  | NewProxyDialer (d : ProxyDialer)
  | ListenAndServe (bindAddress : String)
  /-- Go `wr.Write(record)` of the CSV writer on standard output. -/
  | csvWrite (record : List String)
  /-- Go `wr.Flush()`. -/
  | csvFlush
  deriving DecidableEq, Repr

/-- The events that reach out to the network or start doing so: the bootstrap
resolver, the API calls, the refresher and the listener. -/
def Event.isNetworkStep : Event → Bool
  | Event.NewResolver _ _ => true
  | Event.ResolveA _ => true
  | Event.RegisterDevice => true
  | Event.GeoList => true
  | Event.Discover _ => true
  | Event.runTicker _ _ => true
  | Event.ListenAndServe _ => true
  | _ => false

/-- The events of the bootstrap resolver: its construction and its query. -/
def Event.isResolverStep : Event → Bool
  | Event.NewResolver _ _ => true
  | Event.ResolveA _ => true
  | _ => false

/-- The events of the API client: its construction and its calls. -/
def Event.isClientStep : Event → Bool
  | Event.NewVEClient _ => true
  | Event.RegisterDevice => true
  | Event.GeoList => true
  | Event.Discover _ => true
  | _ => false

/-- How the main goroutine ends. -/
inductive Outcome where
  /-- The function `run` returns this status, which `main` passes to `os.Exit`. -/
  | returned (status : Int)
  /-- A call of `os.Exit(status)` inside `run` ends the process. -/
  | exited (status : Int)
  /-- A runtime panic ends the process. -/
  | panicked (site : PanicSite)
  /-- The call of `http.ListenAndServe` keeps serving and never returns. -/
  | serving
  deriving DecidableEq, Repr

/-- Trace and outcome of a run of the main goroutine. -/
structure RunResult where
  trace : List Event
  outcome : Outcome
  deriving DecidableEq, Repr

/-- The inputs of `run` that come from outside the sources. -/
structure Env where
  /-- The package variable `version` (main.go:29). -/
  version : String
  /-- Go `url.Parse`. -/
  urlParse : String → Except GoError URL
  /-- Go `xproxy.FromURL`: an error, or a dialer; `some d` when that dialer also
  implements `ContextDialer`, `none` when it does not. -/
  FromURL : URL → ContextDialer → Except GoError (Option ContextDialer)
  /-- Go `NewResolver` (declared outside `src/`). -/
  NewResolver : String → Int → Except GoError Resolver
  /-- Go `RandomSource` of the package `veclient` (declared outside `src/`). -/
  RandomSource : Reader
  /-- Go `NewStdJar` (declared outside `src/`). -/
  NewStdJar : Except GoError StdJar
  /-- The API server, as seen by `RegisterDevice`. -/
  registerWorld : Request → HTTPOutcome VERegisterDeviceResponse
  /-- The API server, as seen by `GeoList`. -/
  geoListWorld : Request → HTTPOutcome VEGeoListResponse
  /-- The API server, as seen by the initial `Discover`. -/
  discoverWorld : Request → HTTPOutcome VEDiscoverResponse
  /-- Go `ioutil.ReadFile`. -/
  ReadFile : String → Except GoError String
  /-- Go `caPool.AppendCertsFromPEM(certs)` on a new pool: the pool afterwards
  and the `ok` flag. -/
  AppendCertsFromPEM : String → CertPool × Bool
  /-- Go `http.ListenAndServe`: the error it returns, `none` when it never returns. -/
  ListenAndServe : String → ProxyDialer → Option GoError
  /-- Go `basic_auth_header` (declared outside `src/`). -/
  basic_auth_header : String → String → String

/-- Go `func perror(msg string)` (main.go:32). -/
def perror (msg : String) : List Event :=
  [Event.stderr "", Event.stderr msg]

/-- Go `func arg_fail(msg string)` (main.go:37): prints and calls `os.Exit(2)`.
The result is the output and the exit status. -/
def arg_fail (msg : String) : List Event × Int :=
  (perror msg ++ perror "Usage:" ++ [Event.PrintDefaults], 2)

/-- Go `func parse_args() CLIArgs` (main.go:91), on the flag values `flag.Parse`
stored: the exit of `arg_fail`, or the arguments. -/
def parse_args (args : CLIArgs) : Except (List Event × Int) CLIArgs :=
  if args.country = "" then
    Except.error (arg_fail "Country can't be empty string.")
  else if args.apiAddress ≠ "" ∧ args.bootstrapDNS ≠ "" then
    Except.error (arg_fail "api-address and bootstrap-dns options are mutually exclusive")
  else Except.ok args

/-- The `err` of a Go result pair `(value, err)`. -/
def errOf {α : Type} (r : Except GoError α) : Option GoError :=
  match r with
  | Except.error err => some err
  | Except.ok _ => none

/-- Go `func printCountries(logger, timeout, veclient) int` (main.go:284). -/
def printCountries (env : Env) (_timeout : Int) (veclient : VEClient) : RunResult :=
  match veclient.GeoList env.geoListWorld with
  | (_, GoResult.panicked site) =>
    { trace := [Event.GeoList], outcome := Outcome.panicked site }
  | (_, GoResult.returned (Except.error err)) =>
    { trace := [Event.GeoList, Event.log Level.Critical "GeoList error: %v" [err]],
      outcome := Outcome.returned 11 }
  | (_, GoResult.returned (Except.ok list)) =>
    { trace := [Event.GeoList, Event.csvWrite ["country code", "country name"]] ++
        (list.flatMap fun country =>
          if country.ProxyType = 0 then [Event.csvWrite [country.Region, country.Name]]
          else []) ++
        [Event.csvFlush],
      outcome := Outcome.returned 0 }

/-- The closure `auth` (main.go:253): it holds the pointer `veclient` and reads
the client at each call, so it is a function of the client state at call time. -/
def auth (basic_auth_header : String → String → String) (veclient : VEClient) : String :=
  let (username, password) := veclient.GetProxyCredentials
  basic_auth_header username password

/-- The refresh callback passed to `runTicker` (main.go:233-251): the client
afterwards, the log calls, and the error returned (`none` is nil). -/
def refreshCallback (args : CLIArgs) (veclient : VEClient)
    (world : Request → HTTPOutcome VEDiscoverResponse) :
    VEClient × List Event × GoResult (Option GoError) :=
  let t := [Event.log Level.Info "Refreshing device endpoint..." []]
  match veclient.Discover args.country world with
  | (veclient, GoResult.panicked site) => (veclient, t, GoResult.panicked site)
  | (veclient, GoResult.returned r) =>
    let err := errOf r
    match r with
    | Except.error e =>
      (veclient, t ++ [Event.log Level.Critical "Endpoint discovery failed: %v" [e]],
        GoResult.returned err)
    | Except.ok ips =>
      if ips.Addresses.length = 0 then
        (veclient, t ++ [Event.log Level.Critical "Empty endpoint!" []], GoResult.returned err)
      else
        match ips.NetAddr with
        | GoResult.panicked site => (veclient, t, GoResult.panicked site)
        | GoResult.returned addr =>
          (veclient,
            t ++ [Event.log Level.Info "Device endpoint refreshed, Endpoint: %s" [addr]],
            GoResult.returned none)

/-- The block `if args.proxy != "" { ... }` of `run` (main.go:137-151): an
early return of `run`, or the events and the value of `dialer` afterwards. -/
def run_baseProxy (env : Env) (args : CLIArgs) (dialer : ContextDialer) :
    Except RunResult (List Event × ContextDialer) :=
  if args.proxy ≠ "" then
    let t := [Event.RegisterDialerType "http", Event.RegisterDialerType "https",
      Event.urlParse args.proxy]
    match env.urlParse args.proxy with
    | Except.error err =>
      Except.error
        { trace := t ++ [Event.log Level.Critical "Unable to parse base proxy URL: %v" [err]],
          outcome := Outcome.returned 6 }
    | Except.ok proxyURL =>
      let t := t ++ [Event.FromURL proxyURL dialer]
      match env.FromURL proxyURL dialer with
      | Except.error err =>
        Except.error
          { trace := t ++
              [Event.log Level.Critical "Unable to instantiate base proxy dialer: %v" [err]],
            outcome := Outcome.returned 7 }
      | Except.ok none =>
        Except.error { trace := t, outcome := Outcome.panicked PanicSite.dialerAssertion }
      | Except.ok (some pxDialer) => Except.ok (t, pxDialer)
  else Except.ok ([], dialer)

/-- The block that chooses `veclientDialer` in `run` (main.go:153-178): an
early return of `run`, or the events and the value of `veclientDialer`. -/
def run_apiAddress (env : Env) (args : CLIArgs) (dialer : ContextDialer) :
    Except RunResult (List Event × ContextDialer) :=
  let veclientDialer := dialer
  if args.apiAddress ≠ "" ∨ args.bootstrapDNS ≠ "" then
    if args.apiAddress ≠ "" then
      let apiAddress := args.apiAddress
      let t := [Event.log Level.Info "Using fixed API host IP address = %s" [apiAddress]]
      Except.ok (t ++ [Event.NewFixedDialer apiAddress dialer],
        ContextDialer.fixedDialer apiAddress dialer)
    else
      let t := [Event.NewResolver args.bootstrapDNS args.timeout]
      match env.NewResolver args.bootstrapDNS args.timeout with
      | Except.error err =>
        Except.error
          { trace := t ++
              [Event.log Level.Critical "Unable to instantiate DNS resolver: %v" [err]],
            outcome := Outcome.returned 4 }
      | Except.ok resolver =>
        let t := t ++ [Event.log Level.Info "Discovering API IP address..." [],
          Event.ResolveA API_DOMAIN]
        let addrs := resolver.ResolveA API_DOMAIN
        if addrs.length = 0 then
          Except.error
            { trace := t ++ [Event.log Level.Critical
                "Unable to resolve %s with specified bootstrap DNS" [API_DOMAIN]],
              outcome := Outcome.returned 14 }
        else
          match addrs with
          | [] => Except.error { trace := t, outcome := Outcome.panicked PanicSite.addrsIndex }
          | apiAddress :: _ =>
            let t := t ++ [Event.log Level.Info "Discovered address of API host = %s" [apiAddress]]
            Except.ok (t ++ [Event.NewFixedDialer apiAddress dialer],
              ContextDialer.fixedDialer apiAddress dialer)
  else Except.ok ([], veclientDialer)

/-- The block that loads the CA bundle in `run` (main.go:257-269): an early
return of `run`, or the events and the value of `caPool` (`none` is nil). -/
def run_caPool (env : Env) (args : CLIArgs) : Except RunResult (List Event × Option CertPool) :=
  if args.caFile ≠ "" then
    let t := [Event.ReadFile args.caFile]
    match env.ReadFile args.caFile with
    | Except.error err =>
      Except.error
        { trace := t ++ [Event.log Level.Error "Can't load CA file: %v" [err]],
          outcome := Outcome.returned 15 }
    | Except.ok certs =>
      match env.AppendCertsFromPEM certs with
      | (_, false) =>
        Except.error
          { trace := t ++ [Event.log Level.Error "Can't load certificates from CA file" []],
            outcome := Outcome.returned 15 }
      | (caPool, true) => Except.ok (t, some caPool)
  else Except.ok ([], none)

/-- The transport `run` hands to `NewVEClient` (main.go:183-202). -/
def run_transport (veclientDialer : ContextDialer) : Transport :=
  let tlsConfig : TLSConfig := { ServerName := "", InsecureSkipVerify := true }
  { DialContext := veclientDialer,
    DialTLSContext := (veclientDialer, tlsConfig),
    ForceAttemptHTTP2 := true,
    MaxIdleConns := 100,
    IdleConnTimeout := 90,
    TLSHandshakeTimeout := 10,
    ExpectContinueTimeout := 1 }

/-- Go `func run() int` (main.go:111), main goroutine only: the refresher that
`runTicker` starts runs beside it and is `refreshCallback`. Construction of the
loggers and of the proxy handler is not an event. -/
def run (env : Env) (args : CLIArgs) : RunResult :=
  match parse_args args with
  | Except.error (t, status) => { trace := t, outcome := Outcome.exited status }
  | Except.ok args =>
  if args.showVersion then
    { trace := [Event.stdout env.version], outcome := Outcome.exited 0 }
  else
  let t := [Event.log Level.Info "client version %s is starting..." [env.version]]
  let dialer := ContextDialer.netDialer
  match run_baseProxy env args dialer with
  | Except.error r => { trace := t ++ r.trace, outcome := r.outcome }
  | Except.ok (t1, dialer) =>
  let t := t ++ t1
  match run_apiAddress env args dialer with
  | Except.error r => { trace := t ++ r.trace, outcome := r.outcome }
  | Except.ok (t2, veclientDialer) =>
  let t := t ++ t2
  let transport := some (RoundTripper.custom (run_transport veclientDialer))
  let t := t ++ [Event.NewVEClient transport]
  match NewVEClient transport env.RandomSource env.NewStdJar with
  | Except.error err =>
    { trace := t ++ [Event.log Level.Critical "Unable to construct VEClient: %v" [err]],
      outcome := Outcome.returned 8 }
  | Except.ok veclient =>
  let t := t ++ [Event.RegisterDevice]
  match veclient.RegisterDevice env.registerWorld with
  | (_, GoResult.panicked site) => { trace := t, outcome := Outcome.panicked site }
  | (_, GoResult.returned (some err)) =>
    { trace := t ++
        [Event.log Level.Critical "Unable to perform device registration: %v" [err]],
      outcome := Outcome.returned 10 }
  | (veclient, GoResult.returned none) =>
  if args.listCountries then
    let r := printCountries env args.timeout veclient
    { trace := t ++ r.trace, outcome := r.outcome }
  else
  let t := t ++ [Event.Discover args.country]
  match veclient.Discover args.country env.discoverWorld with
  | (_, GoResult.panicked site) => { trace := t, outcome := Outcome.panicked site }
  | (_, GoResult.returned (Except.error err)) =>
    { trace := t ++ [Event.log Level.Critical "Endpoint discovery failed: %v" [err]],
      outcome := Outcome.returned 12 }
  | (_, GoResult.returned (Except.ok ips)) =>
  if ips.Addresses.length = 0 then
    { trace := t ++ [Event.log Level.Critical "Empty endpoint!" []],
      outcome := Outcome.returned 13 }
  else
  let t := t ++ [Event.runTicker args.refresh args.refreshRetry]
  match run_caPool env args with
  | Except.error r => { trace := t ++ r.trace, outcome := r.outcome }
  | Except.ok (t3, caPool) =>
  let t := t ++ t3
  match ips.NetAddr with
  | GoResult.panicked site => { trace := t, outcome := Outcome.panicked site }
  | GoResult.returned address =>
  match ips.Addresses with
  | [] => { trace := t, outcome := Outcome.panicked PanicSite.addressesIndex }
  | endpointIP :: _ =>
  let handlerDialer : ProxyDialer :=
    { address := address, endpointIP := endpointIP,
      certChainWorkaround := args.certChainWorkaround, caPool := caPool, next := dialer }
  let t := t ++ [Event.NewProxyDialer handlerDialer]
  match ips.NetAddr with
  | GoResult.panicked site => { trace := t, outcome := Outcome.panicked site }
  | GoResult.returned address =>
  let t := t ++ [Event.log Level.Info "Endpoint: %s" [address],
    Event.log Level.Info "Starting proxy server..." [],
    Event.log Level.Info "Init complete." [],
    Event.ListenAndServe args.bindAddress]
  match env.ListenAndServe args.bindAddress handlerDialer with
  | none => { trace := t, outcome := Outcome.serving }
  | some err =>
    { trace := t ++ [Event.log Level.Critical "Server terminated with a reason: %v" [err],
        Event.log Level.Info "Shutting down..." []],
      outcome := Outcome.returned 0 }

/-- Modelled from the spec: `runTicker` is declared outside `src/`; the spec's
refresher waits the `success` interval after a refresh that reported success
and the `retry` interval after one that reported failure. This is the interval
it waits after a callback that returned `err`. -/
def runTicker_nextInterval (refresh retry : Int) (err : Option GoError) : Int :=
  match err with
  | none => refresh
  | some _ => retry

/-! ## Sequential histories of client operations -/

/-- One call of an exported method of `VEClient`, with what the outside world
does during the call. -/
inductive Op where
  | RegisterDevice (world : Request → HTTPOutcome VERegisterDeviceResponse)
  | GeoList (world : Request → HTTPOutcome VEGeoListResponse)
  | Discover (requestedGeo : String) (world : Request → HTTPOutcome VEDiscoverResponse)
  | GetProxyCredentials
  | ResetCookies (Reset : StdJar → StdJar × Option GoError)

/-- The client state a call leaves behind. A panicking call wrote no field
before it panicked, and its deferred `Unlock` released the mutex. -/
def Op.apply (c : VEClient) : Op → VEClient
  | Op.RegisterDevice world => (c.RegisterDevice world).1
  | Op.GeoList world => (c.GeoList world).1
  | Op.Discover requestedGeo world => (c.Discover requestedGeo world).1
  | Op.GetProxyCredentials => c
  | Op.ResetCookies Reset => (c.ResetCookies Reset).1

/-- The client state after a sequential history of calls. -/
def exec (c : VEClient) (history : List Op) : VEClient :=
  history.foldl Op.apply c

/-- The endpoint a call returned, when the call is a `Discover` that completed
successfully on the client state `c`. -/
def Op.discovered (c : VEClient) : Op → Option VEIPEntry
  | Op.Discover requestedGeo world =>
    match (c.Discover requestedGeo world).2 with
    | GoResult.returned (Except.ok e) => some e
    | _ => none
  | _ => none

/-- The endpoint returned by the most recent `Discover` call of the history
that completed successfully, `latest` when there is none; the history starts
on the client state `c`. -/
def lastDiscovered (c : VEClient) (latest : Option VEIPEntry) : List Op → Option VEIPEntry
  | [] => latest
  | op :: rest =>
    lastDiscovered (op.apply c)
      (match op.discovered c with
       | some e => some e
       | none => latest) rest

/-! ## Failure classes of the startup -/

/-- The failure classes at which `run` and `printCountries` return early. -/
inductive StartupFailure where
  | baseProxyURL
  | baseProxyDialer
  | resolverConstruction
  | emptyResolution
  | clientConstruction
  | deviceRegistration
  | regionListing
  | endpointDiscovery
  | emptyEndpoint
  | caBundle
  deriving DecidableEq, Repr

/-- The status of the `return` statement of each failure class (main.go:143,
148, 164, 171, 206, 213, 290, 225, 230, 263 and 267). -/
def StartupFailure.status : StartupFailure → Int
  | StartupFailure.baseProxyURL => 6
  | StartupFailure.baseProxyDialer => 7
  | StartupFailure.resolverConstruction => 4
  | StartupFailure.emptyResolution => 14
  | StartupFailure.clientConstruction => 8
  | StartupFailure.deviceRegistration => 10
  | StartupFailure.regionListing => 11
  | StartupFailure.endpointDiscovery => 12
  | StartupFailure.emptyEndpoint => 13
  | StartupFailure.caBundle => 15

/-- The format strings logged right before the `return` of each failure class. -/
def StartupFailure.logged : StartupFailure → List String
  | StartupFailure.baseProxyURL => ["Unable to parse base proxy URL: %v"]
  | StartupFailure.baseProxyDialer => ["Unable to instantiate base proxy dialer: %v"]
  | StartupFailure.resolverConstruction => ["Unable to instantiate DNS resolver: %v"]
  | StartupFailure.emptyResolution => ["Unable to resolve %s with specified bootstrap DNS"]
  | StartupFailure.clientConstruction => ["Unable to construct VEClient: %v"]
  | StartupFailure.deviceRegistration => ["Unable to perform device registration: %v"]
  | StartupFailure.regionListing => ["GeoList error: %v"]
  | StartupFailure.endpointDiscovery => ["Endpoint discovery failed: %v"]
  | StartupFailure.emptyEndpoint => ["Empty endpoint!"]
  | StartupFailure.caBundle => ["Can't load CA file: %v", "Can't load certificates from CA file"]

/-- The format string of the last event of a trace, when that event is a log
call. -/
def lastLogged (t : List Event) : Option String :=
  match t.getLast? with
  | some (Event.log _ format _) => some format
  | _ => none

/-! ## Example inputs -/

/-- The endpoint of the end-to-end scenario, as `VEIPEntry` can hold it: port
443, addresses `[1.2.3.4]`, user `u`, password `p`. -/
def exampleEndpoint : VEIPEntry :=
  { Username := "u", Password := "p", Protocol := "https", Port := 443,
    Addresses := ["1.2.3.4"] }

/-- An API server that answers a registration with HTTP 200 and a token. -/
def registerOK : Request → HTTPOutcome VERegisterDeviceResponse := fun _ =>
  HTTPOutcome.response 200 "200 OK" ""
    { Data := { AccessToken := "token" }, Status := true, Errors := [] } none

/-- An API server that answers a discovery with HTTP 200 and the endpoint `e`. -/
def discoverOK (e : VEIPEntry) : Request → HTTPOutcome VEDiscoverResponse := fun _ =>
  HTTPOutcome.response 200 "200 OK" "" { Data := e, Status := true, Errors := [] } none

/-- A bootstrap resolver that answers `[10.0.0.1, 10.0.0.2]`. -/
def exampleResolver : Resolver :=
  { ResolveA := fun _ => ["10.0.0.1", "10.0.0.2"] }

/-- A bootstrap resolver that finds no address. -/
def emptyResolver : Resolver :=
  { ResolveA := fun _ => [] }

/-- An environment in which every startup step succeeds and the listener keeps
serving: no base proxy, the bootstrap resolver answers `[10.0.0.1, 10.0.0.2]`,
discovery yields `exampleEndpoint`. -/
def exampleEnv : Env :=
  { version := "undefined",
    urlParse := fun raw => Except.ok { Scheme := "socks5", Host := raw },
    FromURL := fun proxyURL forward => Except.ok (some (ContextDialer.fromURL proxyURL forward)),
    NewResolver := fun _ _ => Except.ok exampleResolver,
    RandomSource := fun n => Except.ok (List.replicate n 171),
    NewStdJar := Except.ok { cookies := [] },
    registerWorld := registerOK,
    geoListWorld := fun _ =>
      HTTPOutcome.response 200 "200 OK" "" { Geos := [], Status := true, Errors := [] } none,
    discoverWorld := discoverOK exampleEndpoint,
    ReadFile := fun _ => Except.ok "",
    AppendCertsFromPEM := fun certs => ([certs], true),
    ListenAndServe := fun _ _ => none,
    basic_auth_header := fun username password => "Basic " ++ username ++ ":" ++ password }

/-- A client as `NewVEClient` builds it, with device id `00`. -/
def exampleClient : VEClient :=
  { httpClient := { Transport := none, Jar := { cookies := [] } },
    Settings := DefaultVESettings,
    AccessToken := "",
    DeviceID := "00",
    DeviceUsername := "",
    DevicePassword := "" }

/-- A client that already holds the credentials `a`/`b`. -/
def exampleClientAB : VEClient :=
  { exampleClient with DeviceUsername := "a", DevicePassword := "b" }

/-- An API server that answers a discovery with an error payload. -/
def discoverRefused : Request → HTTPOutcome VEDiscoverResponse := fun _ =>
  HTTPOutcome.response 200 "200 OK" ""
    { Data := VEDiscoverResponse.zero.Data, Status := false,
      Errors := [{ Name := "NotFound", Message := "no such region" }] } none

/-- Arguments that select the bootstrap resolver. -/
def bootstrapArgs : CLIArgs :=
  { CLIArgs.defaults with bootstrapDNS := "https://1.1.1.1/dns-query" }

/-- Arguments that give a fixed API address. -/
def fixedAddressArgs : CLIArgs :=
  { CLIArgs.defaults with apiAddress := "203.0.113.7" }

/-- Arguments that name a base proxy. -/
def proxyArgs : CLIArgs :=
  { CLIArgs.defaults with proxy := "socks5://10.0.0.1:1080" }

/-- As `exampleEnv`, with a bootstrap resolver that finds no address. -/
def emptyResolverEnv : Env :=
  { exampleEnv with NewResolver := fun _ _ => Except.ok emptyResolver }

/-- As `exampleEnv`, with a base proxy URL that does not parse. -/
def badURLEnv : Env :=
  { exampleEnv with urlParse := fun _ => Except.error "missing protocol scheme" }

/-- As `exampleEnv`, with no dialer for the scheme of the base proxy URL. -/
def noDialerEnv : Env :=
  { exampleEnv with FromURL := fun _ _ => Except.error "unknown scheme" }

/-- Arguments with an empty country. -/
def emptyCountryArgs : CLIArgs :=
  { CLIArgs.defaults with country := "" }

/-- Arguments that set both `api-address` and `bootstrap-dns`. -/
def exclusiveArgs : CLIArgs :=
  { CLIArgs.defaults with apiAddress := "203.0.113.7",
                          bootstrapDNS := "https://1.1.1.1/dns-query" }

/-- Arguments that ask for the list of countries. -/
def listCountriesArgs : CLIArgs :=
  { CLIArgs.defaults with listCountries := true }

/-- As `exampleEnv`, with the HTTP exchange of the registration failing. -/
def registerDownEnv (err : GoError) : Env :=
  { exampleEnv with registerWorld := fun _ => HTTPOutcome.doError err }

/-- As `exampleEnv`, with the HTTP exchange of the discovery failing. -/
def discoverDownEnv (err : GoError) : Env :=
  { exampleEnv with discoverWorld := fun _ => HTTPOutcome.doError err }

/-- As `exampleEnv`, with the HTTP exchange of the region listing failing. -/
def geoListDownEnv (err : GoError) : Env :=
  { exampleEnv with geoListWorld := fun _ => HTTPOutcome.doError err }

/-! ## Rows of the country list -/

/-- The records handed to `wr.Write` in a trace, in program order. -/
def csvRecords : List Event → List (List String)
  | [] => []
  | Event.csvWrite record :: rest => record :: csvRecords rest
  | _ :: rest => csvRecords rest

/-- The rows the claim about `printCountries` describes: one row (region, name)
for each entry of the list whose `ProxyType` is 0, in the order of the list. -/
def countryRows (list : List VEGeoEntry) : List (List String) :=
  (list.filter fun country => country.ProxyType = 0).map
    fun country => [country.Region, country.Name]

/-- A region list with a free entry, an entry of proxy type 1, and another free
entry. -/
def exampleGeos : List VEGeoEntry :=
  [{ ProxyType := 0, Name := "Netherlands", Region := "nl", CountryCode := "NL" },
   { ProxyType := 1, Name := "United States", Region := "us", CountryCode := "US" },
   { ProxyType := 0, Name := "Germany", Region := "de", CountryCode := "DE" }]

/-- An API server that answers a region listing with HTTP 200 and `list`. -/
def geoListOK (list : List VEGeoEntry) : Request → HTTPOutcome VEGeoListResponse := fun _ =>
  HTTPOutcome.response 200 "200 OK" "" { Geos := list, Status := true, Errors := [] } none

/-- An API server that answers a region listing with an error payload. -/
def geoListRefused : Request → HTTPOutcome VEGeoListResponse := fun _ =>
  HTTPOutcome.response 200 "200 OK" ""
    { Geos := [], Status := false,
      Errors := [{ Name := "Unauthorized", Message := "token expired" }] } none

/-- As `exampleEnv`, with an API server that lists `exampleGeos`. -/
def geoListEnv : Env :=
  { exampleEnv with geoListWorld := geoListOK exampleGeos }

/-- As `exampleEnv`, with an API server that refuses the region listing. -/
def geoListRefusedEnv : Env :=
  { exampleEnv with geoListWorld := geoListRefused }

/-- The environment `env` with the API server of `GeoList` replaced. -/
def withGeoListWorld (env : Env) (world : Request → HTTPOutcome VEGeoListResponse) : Env :=
  { env with geoListWorld := world }

/-! ## Case analysis of the stages of `run` and of the client methods -/

theorem run_baseProxy_ok {env : Env} {args : CLIArgs} {dialer pxDialer : ContextDialer}
    {t : List Event} (h : run_baseProxy env args dialer = Except.ok (t, pxDialer)) :
    (args.proxy = "" ∧ t = [] ∧ pxDialer = dialer) ∨
    (args.proxy ≠ "" ∧ ∃ proxyURL, env.urlParse args.proxy = Except.ok proxyURL ∧
      env.FromURL proxyURL dialer = Except.ok (some pxDialer) ∧
      t = [Event.RegisterDialerType "http", Event.RegisterDialerType "https",
        Event.urlParse args.proxy, Event.FromURL proxyURL dialer]) := by
  unfold run_baseProxy at h
  split at h
  · rename_i hp
    right
    refine ⟨hp, ?_⟩
    split at h
    · cases h
    · rename_i proxyURL hu
      split at h
      · cases h
      · cases h
      · rename_i px hf
        simp only [Except.ok.injEq, Prod.mk.injEq] at h
        exact ⟨proxyURL, hu, by rw [hf, h.2], by rw [← h.1]; rfl⟩
  · rename_i hp
    left
    simp only [Except.ok.injEq, Prod.mk.injEq] at h
    exact ⟨by simpa using hp, h.1.symm, h.2.symm⟩

theorem run_baseProxy_error {env : Env} {args : CLIArgs} {dialer : ContextDialer}
    {r : RunResult} (h : run_baseProxy env args dialer = Except.error r) :
    args.proxy ≠ "" ∧
    ((∃ err, env.urlParse args.proxy = Except.error err ∧
        r = { trace := [Event.RegisterDialerType "http", Event.RegisterDialerType "https",
                Event.urlParse args.proxy,
                Event.log Level.Critical "Unable to parse base proxy URL: %v" [err]],
              outcome := Outcome.returned 6 }) ∨
      (∃ proxyURL err, env.urlParse args.proxy = Except.ok proxyURL ∧
        env.FromURL proxyURL dialer = Except.error err ∧
        r = { trace := [Event.RegisterDialerType "http", Event.RegisterDialerType "https",
                Event.urlParse args.proxy, Event.FromURL proxyURL dialer,
                Event.log Level.Critical "Unable to instantiate base proxy dialer: %v" [err]],
              outcome := Outcome.returned 7 }) ∨
      (∃ proxyURL, env.urlParse args.proxy = Except.ok proxyURL ∧
        env.FromURL proxyURL dialer = Except.ok none ∧
        r = { trace := [Event.RegisterDialerType "http", Event.RegisterDialerType "https",
                Event.urlParse args.proxy, Event.FromURL proxyURL dialer],
              outcome := Outcome.panicked PanicSite.dialerAssertion })) := by
  unfold run_baseProxy at h
  split at h
  · rename_i hp
    refine ⟨hp, ?_⟩
    split at h
    · rename_i err hu
      simp only [Except.error.injEq] at h
      exact Or.inl ⟨err, hu, by rw [← h]; rfl⟩
    · rename_i proxyURL hu
      split at h
      · rename_i err hf
        simp only [Except.error.injEq] at h
        exact Or.inr (Or.inl ⟨proxyURL, err, hu, hf, by rw [← h]; rfl⟩)
      · rename_i hf
        simp only [Except.error.injEq] at h
        exact Or.inr (Or.inr ⟨proxyURL, hu, hf, by rw [← h]; rfl⟩)
      · cases h
  · cases h

theorem run_apiAddress_ok {env : Env} {args : CLIArgs} {dialer veclientDialer : ContextDialer}
    {t : List Event} (h : run_apiAddress env args dialer = Except.ok (t, veclientDialer)) :
    (args.apiAddress = "" ∧ args.bootstrapDNS = "" ∧ t = [] ∧ veclientDialer = dialer) ∨
    (args.apiAddress ≠ "" ∧ veclientDialer = ContextDialer.fixedDialer args.apiAddress dialer ∧
      t = [Event.log Level.Info "Using fixed API host IP address = %s" [args.apiAddress],
        Event.NewFixedDialer args.apiAddress dialer]) ∨
    (args.apiAddress = "" ∧ args.bootstrapDNS ≠ "" ∧ ∃ resolver apiAddress rest,
      env.NewResolver args.bootstrapDNS args.timeout = Except.ok resolver ∧
      resolver.ResolveA API_DOMAIN = apiAddress :: rest ∧
      veclientDialer = ContextDialer.fixedDialer apiAddress dialer ∧
      t = [Event.NewResolver args.bootstrapDNS args.timeout,
        Event.log Level.Info "Discovering API IP address..." [],
        Event.ResolveA API_DOMAIN,
        Event.log Level.Info "Discovered address of API host = %s" [apiAddress],
        Event.NewFixedDialer apiAddress dialer]) := by
  unfold run_apiAddress at h
  split at h
  · split at h
    · rename_i _ ha
      simp only [Except.ok.injEq, Prod.mk.injEq] at h
      exact Or.inr (Or.inl ⟨ha, h.2.symm, by rw [← h.1]; rfl⟩)
    · rename_i hab ha
      have ha' : args.apiAddress = "" := by simpa using ha
      have hb : args.bootstrapDNS ≠ "" := by
        rcases hab with h1 | h1
        · exact absurd h1 ha
        · exact h1
      split at h
      · cases h
      · rename_i resolver hr
        simp only at h
        split at h
        · cases h
        · split at h
          · cases h
          · rename_i apiAddress rest hl
            simp only [Except.ok.injEq, Prod.mk.injEq] at h
            exact Or.inr (Or.inr ⟨ha', hb, resolver, apiAddress, rest, hr, hl, h.2.symm,
              by rw [← h.1]; rfl⟩)
  · rename_i hab
    simp only [not_or, not_not] at hab
    simp only [Except.ok.injEq, Prod.mk.injEq] at h
    exact Or.inl ⟨hab.1, hab.2, h.1.symm, h.2.symm⟩

theorem run_apiAddress_error {env : Env} {args : CLIArgs} {dialer : ContextDialer}
    {r : RunResult} (h : run_apiAddress env args dialer = Except.error r) :
    args.apiAddress = "" ∧ args.bootstrapDNS ≠ "" ∧
    ((∃ err, env.NewResolver args.bootstrapDNS args.timeout = Except.error err ∧
        r = { trace := [Event.NewResolver args.bootstrapDNS args.timeout,
                Event.log Level.Critical "Unable to instantiate DNS resolver: %v" [err]],
              outcome := Outcome.returned 4 }) ∨
      (∃ resolver, env.NewResolver args.bootstrapDNS args.timeout = Except.ok resolver ∧
        resolver.ResolveA API_DOMAIN = [] ∧
        r = { trace := [Event.NewResolver args.bootstrapDNS args.timeout,
                Event.log Level.Info "Discovering API IP address..." [],
                Event.ResolveA API_DOMAIN,
                Event.log Level.Critical "Unable to resolve %s with specified bootstrap DNS"
                  [API_DOMAIN]],
              outcome := Outcome.returned 14 })) := by
  unfold run_apiAddress at h
  split at h
  · split at h
    · cases h
    · rename_i hab ha
      have ha' : args.apiAddress = "" := by simpa using ha
      have hb : args.bootstrapDNS ≠ "" := by
        rcases hab with h1 | h1
        · exact absurd h1 ha
        · exact h1
      refine ⟨ha', hb, ?_⟩
      split at h
      · rename_i err hr
        simp only [Except.error.injEq] at h
        exact Or.inl ⟨err, hr, by rw [← h]; rfl⟩
      · rename_i resolver hr
        simp only at h
        split at h
        · rename_i hl
          simp only [Except.error.injEq] at h
          exact Or.inr ⟨resolver, hr, List.length_eq_zero.mp hl, by rw [← h]; rfl⟩
        · rename_i hl
          split at h
          · rename_i hnil
            exact absurd (by rw [hnil]; rfl) hl
          · cases h
  · cases h

theorem run_caPool_ok {env : Env} {args : CLIArgs} {caPool : Option CertPool}
    {t : List Event} (h : run_caPool env args = Except.ok (t, caPool)) :
    t = [] ∨ t = [Event.ReadFile args.caFile] := by
  unfold run_caPool at h
  split at h
  · split at h
    · cases h
    · split at h
      · cases h
      · simp only [Except.ok.injEq, Prod.mk.injEq] at h
        exact Or.inr h.1.symm
  · simp only [Except.ok.injEq, Prod.mk.injEq] at h
    exact Or.inl h.1.symm

theorem run_caPool_error {env : Env} {args : CLIArgs} {r : RunResult}
    (h : run_caPool env args = Except.error r) :
    r.outcome = Outcome.returned 15 ∧
    ∃ format a, r.trace = [Event.ReadFile args.caFile, Event.log Level.Error format a] := by
  unfold run_caPool at h
  split at h
  · split at h
    · simp only [Except.error.injEq] at h
      subst h
      exact ⟨rfl, _, _, rfl⟩
    · split at h
      · simp only [Except.error.injEq] at h
        subst h
        exact ⟨rfl, _, _, rfl⟩
      · cases h
  · cases h

theorem Discover_cases (c : VEClient) (requestedGeo : String)
    (world : Request → HTTPOutcome VEDiscoverResponse) :
    c.Discover requestedGeo world = (c, GoResult.panicked PanicSite.errorsIndex) ∨
    (∃ err, c.Discover requestedGeo world = (c, GoResult.returned (Except.error err))) ∨
    (∃ e, c.Discover requestedGeo world =
      ({ c with DeviceUsername := e.Username, DevicePassword := e.Password },
        GoResult.returned (Except.ok e))) := by
  unfold VEClient.Discover
  rcases c.rpcCall c.Settings.Endpoints.Discover
    [("region", requestedGeo), ("protocol", "https"), ("type", "0")] world
    VEDiscoverResponse.zero with ⟨res, err⟩
  simp only
  split
  · split
    · exact Or.inl rfl
    · exact Or.inr (Or.inl ⟨_, rfl⟩)
  · split
    · exact Or.inr (Or.inl ⟨_, rfl⟩)
    · exact Or.inr (Or.inr ⟨_, rfl⟩)

theorem RegisterDevice_cases (c : VEClient)
    (world : Request → HTTPOutcome VERegisterDeviceResponse) :
    c.RegisterDevice world = (c, GoResult.panicked PanicSite.errorsIndex) ∨
    (∃ err, c.RegisterDevice world = (c, GoResult.returned (some err))) ∨
    (∃ token, c.RegisterDevice world =
      ({ c with AccessToken := token }, GoResult.returned none)) := by
  unfold VEClient.RegisterDevice
  rcases c.rpcCall c.Settings.Endpoints.RegisterDevice
    [("appVersion", c.Settings.AppVersion), ("platform", c.Settings.Platform),
     ("timeZone", c.Settings.TimeZone), ("deviceName", c.Settings.DeviceName),
     ("udid", c.DeviceID)] world VERegisterDeviceResponse.zero with ⟨res, err⟩
  simp only
  split
  · split
    · exact Or.inl rfl
    · exact Or.inr (Or.inl ⟨_, rfl⟩)
  · split
    · exact Or.inr (Or.inl ⟨_, rfl⟩)
    · exact Or.inr (Or.inr ⟨_, rfl⟩)

theorem GeoList_cases (c : VEClient) (world : Request → HTTPOutcome VEGeoListResponse) :
    c.GeoList world = (c, GoResult.panicked PanicSite.errorsIndex) ∨
    (∃ err, c.GeoList world = (c, GoResult.returned (Except.error err))) ∨
    (∃ list, c.GeoList world = (c, GoResult.returned (Except.ok list))) := by
  unfold VEClient.GeoList
  rcases c.rpcCall c.Settings.Endpoints.GeoList [] world VEGeoListResponse.zero with ⟨res, err⟩
  simp only
  split
  · split
    · exact Or.inl rfl
    · exact Or.inr (Or.inl ⟨_, rfl⟩)
  · split
    · exact Or.inr (Or.inl ⟨_, rfl⟩)
    · exact Or.inr (Or.inr ⟨_, rfl⟩)

theorem NetAddr_cons (e : VEIPEntry) (a : String) (rest : List String)
    (h : e.Addresses = a :: rest) :
    e.NetAddr = GoResult.returned (JoinHostPort a (Sprintf_d e.Port)) := by
  unfold VEIPEntry.NetAddr
  rw [h]

theorem printCountries_outcome (env : Env) (timeout : Int) (veclient : VEClient) :
    (printCountries env timeout veclient).outcome = Outcome.panicked PanicSite.errorsIndex ∨
    (printCountries env timeout veclient).outcome = Outcome.returned 11 ∨
    (printCountries env timeout veclient).outcome = Outcome.returned 0 := by
  unfold printCountries
  rcases GeoList_cases veclient env.geoListWorld with h | ⟨err, h⟩ | ⟨list, h⟩ <;> rw [h] <;> simp

theorem parse_args_ok {args args1 : CLIArgs} (h : parse_args args = Except.ok args1) :
    args1 = args ∧ args.country ≠ "" ∧ ¬ (args.apiAddress ≠ "" ∧ args.bootstrapDNS ≠ "") := by
  unfold parse_args at h
  split at h
  · cases h
  · rename_i hc
    split at h
    · cases h
    · rename_i hb
      simp only [Except.ok.injEq] at h
      exact ⟨h.symm, hc, hb⟩

theorem printCountries_trace (env : Env) (timeout : Int) (veclient : VEClient) :
    ∀ ev ∈ (printCountries env timeout veclient).trace,
      ev = Event.GeoList ∨ (∃ level format a, ev = Event.log level format a) ∨
      (∃ record, ev = Event.csvWrite record) ∨ ev = Event.csvFlush := by
  intro ev hev
  unfold printCountries at hev
  rcases GeoList_cases veclient env.geoListWorld with h | ⟨err, h⟩ | ⟨list, h⟩
  · rw [h] at hev
    simp at hev
    simp [hev]
  · rw [h] at hev
    simp at hev
    rcases hev with rfl | rfl <;> simp
  · rw [h] at hev
    simp only [List.mem_append, List.mem_cons, List.mem_singleton, List.mem_flatMap,
      List.not_mem_nil, or_false] at hev
    rcases hev with ((rfl | rfl) | ⟨country, _, hc⟩) | rfl
    · simp
    · simp
    · split at hc
      · simp at hc
        simp [hc]
      · simp at hc
    · simp

theorem Op_apply_credentials (c : VEClient) (op : Op) :
    (op.discovered c = none ∧ (op.apply c).GetProxyCredentials = c.GetProxyCredentials) ∨
    (∃ e, op.discovered c = some e ∧
      (op.apply c).GetProxyCredentials = (e.Username, e.Password)) := by
  cases op with
  | RegisterDevice world =>
    left
    refine ⟨rfl, ?_⟩
    rcases RegisterDevice_cases c world with h | ⟨err, h⟩ | ⟨token, h⟩ <;>
      simp [Op.apply, h, VEClient.GetProxyCredentials]
  | GeoList world =>
    left
    refine ⟨rfl, ?_⟩
    rcases GeoList_cases c world with h | ⟨err, h⟩ | ⟨list, h⟩ <;>
      simp [Op.apply, h]
  | Discover requestedGeo world =>
    rcases Discover_cases c requestedGeo world with h | ⟨err, h⟩ | ⟨e, h⟩
    · left
      simp [Op.apply, Op.discovered, h]
    · left
      simp [Op.apply, Op.discovered, h]
    · right
      exact ⟨e, by simp [Op.discovered, h], by simp [Op.apply, h, VEClient.GetProxyCredentials]⟩
  | GetProxyCredentials =>
    left
    exact ⟨rfl, rfl⟩
  | ResetCookies Reset =>
    left
    exact ⟨rfl, rfl⟩

theorem exec_credentials (history : List Op) :
    ∀ (c : VEClient) (latest : Option VEIPEntry),
      (∀ e, latest = some e → c.GetProxyCredentials = (e.Username, e.Password)) →
      ∀ e, lastDiscovered c latest history = some e →
        (exec c history).GetProxyCredentials = (e.Username, e.Password) := by
  induction history with
  | nil =>
    intro c latest hinv e he
    exact hinv e he
  | cons op rest ih =>
    intro c latest hinv e he
    have hstep : exec c (op :: rest) = exec (op.apply c) rest := rfl
    rw [hstep]
    refine ih (op.apply c) _ ?_ e he
    intro e1 he1
    rcases Op_apply_credentials c op with ⟨hnone, hsame⟩ | ⟨e2, hsome, hnew⟩
    · rw [hnone] at he1
      rw [hsame]
      exact hinv e1 he1
    · rw [hsome] at he1
      cases he1
      exact hnew

theorem printCountries_trace_all (env : Env) (timeout : Int) (veclient : VEClient)
    (p : Event → Bool) (hg : p Event.GeoList = true)
    (hl : ∀ level format a, p (Event.log level format a) = true)
    (hw : ∀ record, p (Event.csvWrite record) = true) (hf : p Event.csvFlush = true) :
    (printCountries env timeout veclient).trace.all p = true := by
  rw [List.all_eq_true]
  intro ev hev
  rcases printCountries_trace env timeout veclient ev hev with
    rfl | ⟨_, _, _, rfl⟩ | ⟨_, rfl⟩ | rfl
  · exact hg
  · exact hl _ _ _
  · exact hw _
  · exact hf

theorem run_trace_all_not_resolver (env : Env) (args : CLIArgs) (ha : args.apiAddress ≠ "") :
    (run env args).trace.all (fun ev => !ev.isResolverStep) = true := by
  unfold run
  split
  · rename_i t status hp
    unfold parse_args at hp
    split at hp
    · cases hp
      simp [arg_fail, perror, Event.isResolverStep]
    · split at hp
      · cases hp
        simp [arg_fail, perror, Event.isResolverStep]
      · cases hp
  rename_i args1 hp
  obtain ⟨rfl, -, -⟩ := parse_args_ok hp
  split
  · simp [Event.isResolverStep]
  simp only
  split
  · rename_i r hr
    rcases run_baseProxy_error hr with ⟨_, ⟨_, _, rfl⟩ | ⟨_, _, _, _, rfl⟩ | ⟨_, _, _, rfl⟩⟩ <;>
      simp [Event.isResolverStep]
  rename_i t1 dialer hr1
  have h1 : t1.all (fun ev => !ev.isResolverStep) = true := by
    rcases run_baseProxy_ok hr1 with ⟨_, rfl, _⟩ | ⟨_, _, _, _, rfl⟩ <;>
      simp [Event.isResolverStep]
  split
  · rename_i r hr
    exact absurd (run_apiAddress_error hr).1 ha
  rename_i t2 veclientDialer hr2
  have h2 : t2.all (fun ev => !ev.isResolverStep) = true := by
    rcases run_apiAddress_ok hr2 with ⟨_, _, rfl, _⟩ | ⟨_, _, rfl⟩ | ⟨h0, _⟩
    · simp
    · simp [Event.isResolverStep]
    · exact absurd h0 ha
  split
  · (simp only [List.all_cons, List.all_append, List.all_nil, h1, h2]; rfl)
  rename_i veclient _
  rcases RegisterDevice_cases veclient env.registerWorld with h | ⟨err, h⟩ | ⟨token, h⟩
  · rw [h]; (simp only [List.all_cons, List.all_append, List.all_nil, h1, h2]; rfl)
  · rw [h]; (simp only [List.all_cons, List.all_append, List.all_nil, h1, h2]; rfl)
  rw [h]
  simp only
  split
  · have hpc := printCountries_trace_all env args1.timeout { veclient with AccessToken := token }
      (fun ev => !ev.isResolverStep) rfl (fun _ _ _ => rfl) (fun _ => rfl) rfl
    (simp only [List.all_cons, List.all_append, List.all_nil, h1, h2, hpc]; rfl)
  rcases Discover_cases { veclient with AccessToken := token } args1.country env.discoverWorld
    with h | ⟨err, h⟩ | ⟨ips, h⟩
  · rw [h]; (simp only [List.all_cons, List.all_append, List.all_nil, h1, h2]; rfl)
  · rw [h]; (simp only [List.all_cons, List.all_append, List.all_nil, h1, h2]; rfl)
  rw [h]
  simp only
  split
  · (simp only [List.all_cons, List.all_append, List.all_nil, h1, h2]; rfl)
  rename_i hlen
  split
  · rename_i r hr
    obtain ⟨_, _, _, hrt⟩ := run_caPool_error hr
    (simp only [List.all_cons, List.all_append, List.all_nil, h1, h2, hrt]; rfl)
  rename_i t3 caPool hr3
  have h3 : t3.all (fun ev => !ev.isResolverStep) = true := by
    rcases run_caPool_ok hr3 with rfl | rfl <;> simp [Event.isResolverStep]
  rcases hA : ips.Addresses with _ | ⟨a, rest⟩
  · simp [hA] at hlen
  rw [NetAddr_cons ips a rest hA]
  simp only
  split <;> (simp only [List.all_cons, List.all_append, List.all_nil, h1, h2, h3]; rfl)


theorem run_trace_contains_api_stage (env : Env) (args : CLIArgs) (t1 t2 : List Event)
    (dialer veclientDialer : ContextDialer)
    (hpa : parse_args args = Except.ok args) (hv : args.showVersion = false)
    (hbp : run_baseProxy env args ContextDialer.netDialer = Except.ok (t1, dialer))
    (hapi : run_apiAddress env args dialer = Except.ok (t2, veclientDialer)) :
    ∀ ev, ev ∈ t2 ∨
        ev = Event.NewVEClient (some (RoundTripper.custom (run_transport veclientDialer))) →
      ev ∈ (run env args).trace := by
  intro ev hev
  unfold run
  simp only [hpa, hv, hbp, hapi, Bool.false_eq_true, if_false]
  split
  · rcases hev with hev | hev <;> simp [hev]
  rename_i veclient _
  rcases RegisterDevice_cases veclient env.registerWorld with h | ⟨err, h⟩ | ⟨token, h⟩
  · rw [h]
    rcases hev with hev | hev <;> simp [hev]
  · rw [h]
    rcases hev with hev | hev <;> simp [hev]
  rw [h]
  simp only
  split
  · rcases hev with hev | hev <;> simp [hev]
  rcases Discover_cases { veclient with AccessToken := token } args.country env.discoverWorld
    with h | ⟨err, h⟩ | ⟨ips, h⟩
  · rw [h]
    rcases hev with hev | hev <;> simp [hev]
  · rw [h]
    rcases hev with hev | hev <;> simp [hev]
  rw [h]
  simp only
  split
  · rcases hev with hev | hev <;> simp [hev]
  rename_i hlen
  split
  · rcases hev with hev | hev <;> simp [hev]
  rcases hA : ips.Addresses with _ | ⟨a, rest⟩
  · simp [hA] at hlen
  rw [NetAddr_cons ips a rest hA]
  simp only
  split <;> rcases hev with hev | hev <;> simp [hev]

theorem run_caPool_error_cases {env : Env} {args : CLIArgs} {r : RunResult}
    (h : run_caPool env args = Except.error r) :
    (∃ err, r = { trace := [Event.ReadFile args.caFile,
                    Event.log Level.Error "Can't load CA file: %v" [err]],
                  outcome := Outcome.returned 15 }) ∨
    r = { trace := [Event.ReadFile args.caFile,
            Event.log Level.Error "Can't load certificates from CA file" []],
          outcome := Outcome.returned 15 } := by
  unfold run_caPool at h
  split at h
  · split at h
    · simp only [Except.error.injEq] at h
      subst h
      exact Or.inl ⟨_, rfl⟩
    · split at h
      · simp only [Except.error.injEq] at h
        subst h
        exact Or.inr rfl
      · cases h
  · cases h

theorem lastLogged_eq (t : List Event) :
    lastLogged t =
      match t.reverse.head? with
      | some (Event.log _ format _) => some format
      | _ => none := by
  unfold lastLogged
  rw [List.head?_reverse]

theorem printCountries_returned (env : Env) (timeout : Int) (veclient : VEClient) (s : Int)
    (h : (printCountries env timeout veclient).outcome = Outcome.returned s) :
    (s = 0 ∧ Event.csvFlush ∈ (printCountries env timeout veclient).trace) ∨
    (s = 11 ∧ ∃ err, (printCountries env timeout veclient).trace =
      [Event.GeoList, Event.log Level.Critical "GeoList error: %v" [err]]) := by
  unfold printCountries at h ⊢
  rcases GeoList_cases veclient env.geoListWorld with hg | ⟨err, hg⟩ | ⟨list, hg⟩
  · rw [hg] at h
    simp at h
  · rw [hg] at h ⊢
    simp at h
    exact Or.inr ⟨h.symm, err, rfl⟩
  · rw [hg] at h ⊢
    simp at h
    exact Or.inl ⟨h.symm, by simp⟩

/-- Every status that `run` returns is accounted for: status 0 is returned only
after the listener ended or after the list of countries was written; any other
status is the status of a failure class, returned right after logging one of
the messages of that class. -/
theorem run_returned_status (env : Env) (args : CLIArgs) (s : Int)
    (h : (run env args).outcome = Outcome.returned s) :
    (s = 0 ∧ (Event.ListenAndServe args.bindAddress ∈ (run env args).trace ∨
        Event.csvFlush ∈ (run env args).trace)) ∨
    ∃ (k : StartupFailure) (format : String),
      s = k.status ∧ format ∈ k.logged ∧ lastLogged (run env args).trace = some format := by
  generalize hR : run env args = R at h ⊢
  unfold run at hR
  split at hR
  · subst hR
    simp at h
  rename_i args1 hp
  obtain ⟨rfl, -, -⟩ := parse_args_ok hp
  split at hR
  · subst hR
    simp at h
  simp only at hR
  split at hR
  · rename_i r hr
    right
    subst hR
    rcases run_baseProxy_error hr with ⟨_, ⟨_, _, rfl⟩ | ⟨_, _, _, _, rfl⟩ | ⟨_, _, _, rfl⟩⟩
    · simp at h
      exact ⟨StartupFailure.baseProxyURL, "Unable to parse base proxy URL: %v", h.symm,
        by simp [StartupFailure.logged], by rw [lastLogged_eq]; simp⟩
    · simp at h
      exact ⟨StartupFailure.baseProxyDialer, "Unable to instantiate base proxy dialer: %v",
        h.symm, by simp [StartupFailure.logged], by rw [lastLogged_eq]; simp⟩
    · simp at h
  rename_i t1 dialer hr1
  split at hR
  · rename_i r hr
    right
    subst hR
    rcases run_apiAddress_error hr with ⟨_, _, ⟨_, _, rfl⟩ | ⟨_, _, _, rfl⟩⟩
    · simp at h
      exact ⟨StartupFailure.resolverConstruction, "Unable to instantiate DNS resolver: %v",
        h.symm, by simp [StartupFailure.logged], by rw [lastLogged_eq]; simp⟩
    · simp at h
      exact ⟨StartupFailure.emptyResolution,
        "Unable to resolve %s with specified bootstrap DNS",
        h.symm, by simp [StartupFailure.logged], by rw [lastLogged_eq]; simp⟩
  rename_i t2 veclientDialer hr2
  split at hR
  · right
    subst hR
    simp at h
    exact ⟨StartupFailure.clientConstruction, "Unable to construct VEClient: %v",
      h.symm, by simp [StartupFailure.logged], by rw [lastLogged_eq]; simp⟩
  rename_i veclient _
  rcases RegisterDevice_cases veclient env.registerWorld with hreg | ⟨err, hreg⟩ | ⟨token, hreg⟩
  · rw [hreg] at hR
    subst hR
    simp at h
  · rw [hreg] at hR
    subst hR
    simp at h
    exact Or.inr ⟨StartupFailure.deviceRegistration,
      "Unable to perform device registration: %v",
      h.symm, by simp [StartupFailure.logged], by rw [lastLogged_eq]; simp⟩
  rw [hreg] at hR
  simp only at hR
  split at hR
  · subst hR
    simp only at h
    rcases printCountries_returned env args1.timeout _ s h with ⟨hs, hmem⟩ | ⟨hs, err, htr⟩
    · exact Or.inl ⟨hs, Or.inr (by simp [hmem])⟩
    · exact Or.inr ⟨StartupFailure.regionListing, "GeoList error: %v", hs,
        by simp [StartupFailure.logged], by rw [lastLogged_eq]; simp [htr]⟩
  rcases Discover_cases { veclient with AccessToken := token } args1.country env.discoverWorld
    with hd | ⟨err, hd⟩ | ⟨ips, hd⟩
  · rw [hd] at hR
    subst hR
    simp at h
  · rw [hd] at hR
    subst hR
    simp at h
    exact Or.inr ⟨StartupFailure.endpointDiscovery, "Endpoint discovery failed: %v",
      h.symm, by simp [StartupFailure.logged], by rw [lastLogged_eq]; simp⟩
  rw [hd] at hR
  simp only at hR
  split at hR
  · subst hR
    simp at h
    exact Or.inr ⟨StartupFailure.emptyEndpoint, "Empty endpoint!",
      h.symm, by simp [StartupFailure.logged], by rw [lastLogged_eq]; simp⟩
  rename_i hlen
  split at hR
  · rename_i r hr
    subst hR
    rcases run_caPool_error_cases hr with ⟨err, rfl⟩ | rfl
    · simp at h
      exact Or.inr ⟨StartupFailure.caBundle, "Can't load CA file: %v",
        h.symm, by simp [StartupFailure.logged], by rw [lastLogged_eq]; simp⟩
    · simp at h
      exact Or.inr ⟨StartupFailure.caBundle, "Can't load certificates from CA file",
        h.symm, by simp [StartupFailure.logged], by rw [lastLogged_eq]; simp⟩
  rename_i t3 caPool hr3
  rcases hA : ips.Addresses with _ | ⟨a, rest⟩
  · simp [hA] at hlen
  rw [NetAddr_cons ips a rest hA] at hR
  simp only [hA] at hR
  split at hR
  · subst hR
    simp at h
  · subst hR
    simp at h
    exact Or.inl ⟨h.symm, Or.inl (by simp)⟩

/-- The statuses of the failure classes are non-zero and pairwise distinct. -/
theorem StartupFailure_status_distinct :
    (∀ k : StartupFailure, k.status ≠ 0) ∧
    (∀ k1 k2 : StartupFailure, k1 ≠ k2 → k1.status ≠ k2.status) := by
  refine ⟨?_, ?_⟩
  · intro k
    cases k <;> decide
  · intro k1 k2
    cases k1 <;> cases k2 <;> decide

theorem csvRecords_append (t1 t2 : List Event) :
    csvRecords (t1 ++ t2) = csvRecords t1 ++ csvRecords t2 := by
  induction t1 with
  | nil => rfl
  | cons ev rest ih =>
    cases ev <;> simp [csvRecords, ih]

theorem csvRecords_country_loop (list : List VEGeoEntry) :
    csvRecords (list.flatMap fun country =>
      if country.ProxyType = 0 then [Event.csvWrite [country.Region, country.Name]]
      else []) = countryRows list := by
  induction list with
  | nil => rfl
  | cons country rest ih =>
    rw [List.flatMap_cons, csvRecords_append, ih]
    by_cases h : country.ProxyType = 0
    · simp [countryRows, h, csvRecords]
    · simp [countryRows, h, csvRecords]

theorem country_loop_eq_map (list : List VEGeoEntry) :
    (list.flatMap fun country =>
      if country.ProxyType = 0 then [Event.csvWrite [country.Region, country.Name]]
      else []) = (countryRows list).map Event.csvWrite := by
  induction list with
  | nil => rfl
  | cons country rest ih =>
    rw [List.flatMap_cons, ih]
    by_cases hz : country.ProxyType = 0
    · simp [countryRows, hz]
    · simp [countryRows, hz]

/-! ## The refresh callback and the API client -/

/-- C1 (defect of the code): when `Discover` succeeds with an empty address
list (HTTP 200, `success=true`, no addresses), the refresh callback logs
"Empty endpoint!" and then returns the `err` of the `Discover` call, which is
nil at that point; a refresher that chooses its interval from the returned
error therefore waits the success interval, not the retry interval. -/
theorem refreshCallback_empty_endpoint_returns_nil (args : CLIArgs) (c : VEClient)
    (Status Header username password proto : String) (port : Int) (errors : List Error) :
    let e : VEIPEntry :=
      { Username := username, Password := password, Protocol := proto, Port := port,
        Addresses := [] }
    let world : Request → HTTPOutcome VEDiscoverResponse := fun _ =>
      HTTPOutcome.response 200 Status Header
        ({ Data := e, Status := true, Errors := errors } : VEDiscoverResponse) none
    (c.Discover args.country world).2 = GoResult.returned (Except.ok e) ∧
    (refreshCallback args c world).2.2 = GoResult.returned none ∧
    Event.log Level.Critical "Empty endpoint!" [] ∈ (refreshCallback args c world).2.1 ∧
    runTicker_nextInterval args.refresh args.refreshRetry none = args.refresh := by
  simp [refreshCallback, VEClient.Discover, VEClient.rpcCall, errOf, runTicker_nextInterval]

/-- C2 (defect of the code): when the RPC call leaves the response structure
unpopulated (the request cannot be built, or the HTTP exchange fails), or when
the API answers `success=false` with an empty `errors` list, `Discover` reads
`discoverRes.Errors[0]` before it looks at `err` and panics with an index out
of range; it returns neither an endpoint nor an error, and the panic passes
through the refresh callback. -/
theorem Discover_panics_on_empty_errors (args : CLIArgs) (c : VEClient) (requestedGeo : String)
    (err : GoError) :
    c.Discover requestedGeo (fun _ => HTTPOutcome.doError err)
      = (c, GoResult.panicked PanicSite.errorsIndex) ∧
    c.Discover requestedGeo (fun _ => HTTPOutcome.requestError err)
      = (c, GoResult.panicked PanicSite.errorsIndex) ∧
    (∀ (StatusCode : Nat) (Status Header : String) (data : VEIPEntry)
        (decodeErr : Option GoError),
      c.Discover requestedGeo (fun _ => HTTPOutcome.response StatusCode Status Header
          ({ Data := data, Status := false, Errors := [] } : VEDiscoverResponse) decodeErr)
        = (c, GoResult.panicked PanicSite.errorsIndex)) ∧
    (refreshCallback args c (fun _ => HTTPOutcome.doError err)).2.2
      = GoResult.panicked PanicSite.errorsIndex := by
  refine ⟨?_, ?_, ?_, ?_⟩
  · simp [VEClient.Discover, VEClient.rpcCall, VEDiscoverResponse.zero]
  · simp [VEClient.Discover, VEClient.rpcCall, VEDiscoverResponse.zero]
  · intro StatusCode Status Header data decodeErr
    cases decodeErr with
    | none =>
      by_cases h : StatusCode = 200 <;> simp [VEClient.Discover, VEClient.rpcCall, h]
    | some e => simp [VEClient.Discover, VEClient.rpcCall]
  · simp [refreshCallback, VEClient.Discover, VEClient.rpcCall, VEDiscoverResponse.zero]

/-- C3 (defect of the code): `NewVEClient` never stores its `transport`
argument. Whenever construction succeeds (the random source and the cookie jar
are available), the HTTP client of the result has a nil `Transport` field, so
its calls go through `http.DefaultTransport`, whatever transport was passed. -/
theorem NewVEClient_ignores_transport (t : RoundTripper) (bytes : Nat → List Nat)
    (jar : StdJar) :
    NewVEClient (some t) (fun n => Except.ok (bytes n)) (Except.ok jar) =
      Except.ok
        { httpClient := { Transport := none, Jar := jar },
          Settings := DefaultVESettings,
          AccessToken := "",
          DeviceID := hexEncodeToString (readBuffer DEVICE_ID_BYTES (bytes DEVICE_ID_BYTES)),
          DeviceUsername := "",
          DevicePassword := "" } ∧
    (NewVEClient (some t) (fun n => Except.ok (bytes n)) (Except.ok jar)).toOption.map
        (fun c => c.httpClient.transport) = some RoundTripper.DefaultTransport ∧
    NewVEClient (some t) (fun n => Except.ok (bytes n)) (Except.ok jar) =
      NewVEClient none (fun n => Except.ok (bytes n)) (Except.ok jar) := by
  refine ⟨?_, ?_, ?_⟩
  · simp [NewVEClient, randomHexString]
  · simp [NewVEClient, randomHexString, Except.toOption, HTTPClient.transport]
  · simp [NewVEClient, randomHexString]

/-! ## NetAddr -/

/-- C4, the claim as stated fails: for the endpoint of the scenario (port 443,
addresses `[1.2.3.4]`; `VEIPEntry` has no field for the host name
`nl1.example.com`) `NetAddr` returns `1.2.3.4:443`, built from the first
literal address, and not `nl1.example.com:443`. -/
theorem NetAddr_is_not_hostname_port :
    exampleEndpoint.NetAddr = GoResult.returned "1.2.3.4:443" ∧
    exampleEndpoint.NetAddr ≠ GoResult.returned "nl1.example.com:443" := by
  decide

/-- C4, amended: for every endpoint with a non-empty address list `NetAddr`
returns `net.JoinHostPort` of the first entry of the address list and the
decimal port; for port 443 and addresses `[1.2.3.4]` that is `1.2.3.4:443`; and
whenever `run` builds the upstream proxy dialer, its first argument is the
`NetAddr` of the endpoint that the initial `Discover` returned and its second
argument is that endpoint's `Addresses[0]`. -/
theorem NetAddr_joins_first_address_and_port :
    (∀ (e : VEIPEntry) (a : String) (rest : List String), e.Addresses = a :: rest →
      e.NetAddr = GoResult.returned (JoinHostPort a (Sprintf_d e.Port))) ∧
    exampleEndpoint.NetAddr = GoResult.returned "1.2.3.4:443" ∧
    (∀ (env : Env) (args : CLIArgs) (d : ProxyDialer),
      Event.NewProxyDialer d ∈ (run env args).trace →
      ∃ (c : VEClient) (ips : VEIPEntry),
        (c.Discover args.country env.discoverWorld).2 = GoResult.returned (Except.ok ips) ∧
        ips.NetAddr = GoResult.returned d.address ∧
        ips.Addresses.head? = some d.endpointIP) := by
  refine ⟨NetAddr_cons, by decide, ?_⟩
  intro env args d hd
  unfold run at hd
  split at hd
  · rename_i t status hp
    unfold parse_args at hp
    split at hp
    · cases hp
      simp [arg_fail, perror] at hd
    · split at hp
      · cases hp
        simp [arg_fail, perror] at hd
      · cases hp
  rename_i args1 hp
  obtain ⟨rfl, -, -⟩ := parse_args_ok hp
  split at hd
  · simp at hd
  simp only at hd
  split at hd
  · rename_i r hr
    rcases run_baseProxy_error hr with ⟨_, ⟨_, _, rfl⟩ | ⟨_, _, _, _, rfl⟩ | ⟨_, _, _, rfl⟩⟩ <;>
      simp at hd
  rename_i t1 dialer hr1
  have h1 : ∀ d, Event.NewProxyDialer d ∉ t1 := by
    rcases run_baseProxy_ok hr1 with ⟨_, rfl, _⟩ | ⟨_, _, _, _, rfl⟩ <;> simp
  split at hd
  · rename_i r hr
    rcases run_apiAddress_error hr with ⟨_, _, ⟨_, _, rfl⟩ | ⟨_, _, _, rfl⟩⟩ <;>
      simp [h1] at hd
  rename_i t2 veclientDialer hr2
  have h2 : ∀ d, Event.NewProxyDialer d ∉ t2 := by
    rcases run_apiAddress_ok hr2 with ⟨_, _, rfl, _⟩ | ⟨_, _, rfl⟩ |
      ⟨_, _, _, _, _, _, _, _, rfl⟩ <;> simp
  split at hd
  · simp [h1, h2] at hd
  rename_i veclient _
  rcases RegisterDevice_cases veclient env.registerWorld with h | ⟨err, h⟩ | ⟨token, h⟩
  · rw [h] at hd; simp [h1, h2] at hd
  · rw [h] at hd; simp [h1, h2] at hd
  rw [h] at hd
  simp only at hd
  split at hd
  · have hpc := printCountries_trace env args1.timeout { veclient with AccessToken := token }
      (Event.NewProxyDialer d)
    simp only [List.mem_append] at hd
    rcases hd with hd | hd
    · simp [h1, h2] at hd
    · simpa using hpc hd
  rcases Discover_cases { veclient with AccessToken := token } args1.country env.discoverWorld
    with h | ⟨err, h⟩ | ⟨ips, h⟩
  · rw [h] at hd; simp [h1, h2] at hd
  · rw [h] at hd; simp [h1, h2] at hd
  rw [h] at hd
  simp only at hd
  split at hd
  · simp [h1, h2] at hd
  rename_i hlen
  split at hd
  · rename_i r hr
    obtain ⟨_, _, _, hrt⟩ := run_caPool_error hr
    simp [h1, h2, hrt] at hd
  rename_i t3 caPool hr3
  have h3 : ∀ d, Event.NewProxyDialer d ∉ t3 := by
    rcases run_caPool_ok hr3 with rfl | rfl <;> simp
  rcases hA : ips.Addresses with _ | ⟨a, rest⟩
  · simp [hA] at hlen
  refine ⟨{ veclient with AccessToken := token }, ips, by rw [h], ?_⟩
  rw [NetAddr_cons ips a rest hA] at hd ⊢
  simp only [hA] at hd
  split at hd
  · simp [h1, h2, h3] at hd
    subst hd
    simp [hA]
  · simp [h1, h2, h3] at hd
    subst hd
    simp [hA]

/-- Witness for C4 as amended: the endpoint of the scenario, and a run in
which every startup step succeeds. -/
theorem NetAddr_joins_first_address_and_port_witness :
    exampleEndpoint.NetAddr = GoResult.returned (JoinHostPort "1.2.3.4" (Sprintf_d 443)) ∧
    ∃ (c : VEClient) (ips : VEIPEntry),
      (c.Discover CLIArgs.defaults.country exampleEnv.discoverWorld).2
        = GoResult.returned (Except.ok ips) ∧
      ips.NetAddr = GoResult.returned "1.2.3.4:443" ∧
      ips.Addresses.head? = some "1.2.3.4" :=
  ⟨NetAddr_joins_first_address_and_port.1 exampleEndpoint "1.2.3.4" [] rfl,
   NetAddr_joins_first_address_and_port.2.2 exampleEnv CLIArgs.defaults
     { address := "1.2.3.4:443", endpointIP := "1.2.3.4", certChainWorkaround := true,
       caPool := none, next := ContextDialer.netDialer } (by decide)⟩

/-! ## Credentials -/

/-- C5: in every sequential history of client calls in which some `Discover`
completed successfully, `GetProxyCredentials` on the state after the history
returns the username and password of the endpoint that the most recent
successful `Discover` returned; and the `auth` closure of `run`, invoked on
that state, builds its header from those same two values. -/
theorem GetProxyCredentials_returns_latest_discovered (c : VEClient) (history : List Op)
    (e : VEIPEntry) (basic_auth_header : String → String → String)
    (h : lastDiscovered c none history = some e) :
    (exec c history).GetProxyCredentials = (e.Username, e.Password) ∧
    auth basic_auth_header (exec c history) = basic_auth_header e.Username e.Password := by
  have hcred := exec_credentials history c none (fun _ hnone => by cases hnone) e h
  refine ⟨hcred, ?_⟩
  unfold auth
  rw [hcred]

/-- Witness for C5: a first discovery yields `a`/`b`, a second one yields
`u`/`p`, a third one fails in transport, then the credentials are read. -/
theorem GetProxyCredentials_returns_latest_discovered_witness :
    (exec exampleClient
      [Op.Discover "nl" (discoverOK { exampleEndpoint with Username := "a", Password := "b" }),
       Op.RegisterDevice registerOK,
       Op.Discover "nl" (discoverOK exampleEndpoint),
       Op.Discover "nl" (fun _ => HTTPOutcome.doError "timeout"),
       Op.GetProxyCredentials]).GetProxyCredentials = ("u", "p") ∧
    auth exampleEnv.basic_auth_header (exec exampleClient
      [Op.Discover "nl" (discoverOK { exampleEndpoint with Username := "a", Password := "b" }),
       Op.RegisterDevice registerOK,
       Op.Discover "nl" (discoverOK exampleEndpoint),
       Op.Discover "nl" (fun _ => HTTPOutcome.doError "timeout"),
       Op.GetProxyCredentials]) = exampleEnv.basic_auth_header "u" "p" :=
  GetProxyCredentials_returns_latest_discovered exampleClient _ exampleEndpoint
    exampleEnv.basic_auth_header rfl

/-- C6: `Discover` changes the credential pair as a whole. When it returns an
error, or panics, both `DeviceUsername` and `DevicePassword` are unchanged; when
it returns an endpoint both are that endpoint's username and password; so
after every call either both fields are unchanged or both are the returned
endpoint's. -/
theorem Discover_replaces_credentials_together (c : VEClient) (requestedGeo : String)
    (world : Request → HTTPOutcome VEDiscoverResponse) :
    (∀ err, (c.Discover requestedGeo world).2 = GoResult.returned (Except.error err) →
      (c.Discover requestedGeo world).1.DeviceUsername = c.DeviceUsername ∧
      (c.Discover requestedGeo world).1.DevicePassword = c.DevicePassword) ∧
    (∀ e, (c.Discover requestedGeo world).2 = GoResult.returned (Except.ok e) →
      (c.Discover requestedGeo world).1.DeviceUsername = e.Username ∧
      (c.Discover requestedGeo world).1.DevicePassword = e.Password) ∧
    (∀ site, (c.Discover requestedGeo world).2 = GoResult.panicked site →
      (c.Discover requestedGeo world).1.DeviceUsername = c.DeviceUsername ∧
      (c.Discover requestedGeo world).1.DevicePassword = c.DevicePassword) ∧
    (((c.Discover requestedGeo world).1.DeviceUsername = c.DeviceUsername ∧
        (c.Discover requestedGeo world).1.DevicePassword = c.DevicePassword) ∨
      (∃ e, (c.Discover requestedGeo world).2 = GoResult.returned (Except.ok e) ∧
        (c.Discover requestedGeo world).1.DeviceUsername = e.Username ∧
        (c.Discover requestedGeo world).1.DevicePassword = e.Password)) := by
  rcases Discover_cases c requestedGeo world with h | ⟨err, h⟩ | ⟨e, h⟩
  · rw [h]
    simp
  · rw [h]
    simp
  · rw [h]
    refine ⟨?_, ?_, ?_, ?_⟩
    · intro err herr
      simp at herr
    · intro e1 he1
      simp at he1
      subst he1
      exact ⟨rfl, rfl⟩
    · intro site hs
      simp at hs
    · exact Or.inr ⟨e, rfl, rfl, rfl⟩

/-- Witness for C6: a client holding `a`/`b` keeps both when the API answers
with an error payload, and holds `u`/`p` after a successful discovery. -/
theorem Discover_replaces_credentials_together_witness :
    ((exampleClientAB.Discover "zz" discoverRefused).1.DeviceUsername = "a" ∧
      (exampleClientAB.Discover "zz" discoverRefused).1.DevicePassword = "b") ∧
    ((exampleClientAB.Discover "nl" (discoverOK exampleEndpoint)).1.DeviceUsername = "u" ∧
      (exampleClientAB.Discover "nl" (discoverOK exampleEndpoint)).1.DevicePassword = "p") :=
  ⟨(Discover_replaces_credentials_together exampleClientAB "zz" discoverRefused).1
      "no such region (zz)" rfl,
   (Discover_replaces_credentials_together exampleClientAB "nl"
      (discoverOK exampleEndpoint)).2.1 exampleEndpoint rfl⟩

/-! ## Startup of `run` -/

/-- C7: every configuration error ends startup before any network step. With
an empty country, or with both `api-address` and `bootstrap-dns` set,
`parse_args` exits with status 2; with valid arguments and a base proxy URL
that does not parse `run` returns 6, and with one for which `xproxy.FromURL`
fails `run` returns 7; in each case the run has invoked neither the bootstrap
resolver nor `RegisterDevice`, `GeoList`, `Discover`, the refresher or the
listener. -/
theorem config_error_before_network (env : Env) (args : CLIArgs) :
    ((args.country = "" ∨ (args.apiAddress ≠ "" ∧ args.bootstrapDNS ≠ "")) →
      (∃ t, parse_args args = Except.error (t, 2)) ∧
      (run env args).outcome = Outcome.exited 2 ∧
      ∀ ev ∈ (run env args).trace, ev.isNetworkStep = false) ∧
    (args.country ≠ "" → ¬ (args.apiAddress ≠ "" ∧ args.bootstrapDNS ≠ "") →
      args.showVersion = false → args.proxy ≠ "" →
      ∀ err, env.urlParse args.proxy = Except.error err →
        (run env args).outcome = Outcome.returned 6 ∧
        ∀ ev ∈ (run env args).trace, ev.isNetworkStep = false) ∧
    (args.country ≠ "" → ¬ (args.apiAddress ≠ "" ∧ args.bootstrapDNS ≠ "") →
      args.showVersion = false → args.proxy ≠ "" →
      ∀ proxyURL err, env.urlParse args.proxy = Except.ok proxyURL →
        env.FromURL proxyURL ContextDialer.netDialer = Except.error err →
        (run env args).outcome = Outcome.returned 7 ∧
        ∀ ev ∈ (run env args).trace, ev.isNetworkStep = false) := by
  refine ⟨?_, ?_, ?_⟩
  · intro h
    by_cases hc : args.country = ""
    · refine ⟨⟨(arg_fail "Country can't be empty string.").1,
        by simp [parse_args, hc, arg_fail]⟩, ?_, ?_⟩
      · simp [run, parse_args, hc, arg_fail]
      · simp [run, parse_args, hc, arg_fail, perror, Event.isNetworkStep]
    · have hb : args.apiAddress ≠ "" ∧ args.bootstrapDNS ≠ "" := by
        rcases h with h | h
        · exact absurd h hc
        · exact h
      refine ⟨⟨(arg_fail "api-address and bootstrap-dns options are mutually exclusive").1,
        by simp [parse_args, hc, hb, arg_fail]⟩, ?_, ?_⟩
      · simp [run, parse_args, hc, hb, arg_fail]
      · simp [run, parse_args, hc, hb, arg_fail, perror, Event.isNetworkStep]
  · intro hc hb hv hp err hu
    have hpa : parse_args args = Except.ok args := by simp [parse_args, hc, hb]
    have hbp : run_baseProxy env args ContextDialer.netDialer = Except.error
        { trace := [Event.RegisterDialerType "http", Event.RegisterDialerType "https",
            Event.urlParse args.proxy,
            Event.log Level.Critical "Unable to parse base proxy URL: %v" [err]],
          outcome := Outcome.returned 6 } := by
      simp [run_baseProxy, hp, hu]
    simp [run, hpa, hv, hbp, Event.isNetworkStep]
  · intro hc hb hv hp proxyURL err hu hf
    have hpa : parse_args args = Except.ok args := by simp [parse_args, hc, hb]
    have hbp : run_baseProxy env args ContextDialer.netDialer = Except.error
        { trace := [Event.RegisterDialerType "http", Event.RegisterDialerType "https",
            Event.urlParse args.proxy, Event.FromURL proxyURL ContextDialer.netDialer,
            Event.log Level.Critical "Unable to instantiate base proxy dialer: %v" [err]],
          outcome := Outcome.returned 7 } := by
      simp [run_baseProxy, hp, hu, hf]
    simp [run, hpa, hv, hbp, Event.isNetworkStep]

/-- Witness for C7: an empty country, both exclusive options, a proxy URL that
does not parse, and a proxy URL without a dialer. -/
theorem config_error_before_network_witness :
    ((run exampleEnv emptyCountryArgs).outcome = Outcome.exited 2 ∧
      ∀ ev ∈ (run exampleEnv emptyCountryArgs).trace, ev.isNetworkStep = false) ∧
    ((run exampleEnv exclusiveArgs).outcome = Outcome.exited 2 ∧
      ∀ ev ∈ (run exampleEnv exclusiveArgs).trace, ev.isNetworkStep = false) ∧
    ((run badURLEnv proxyArgs).outcome = Outcome.returned 6 ∧
      ∀ ev ∈ (run badURLEnv proxyArgs).trace, ev.isNetworkStep = false) ∧
    ((run noDialerEnv proxyArgs).outcome = Outcome.returned 7 ∧
      ∀ ev ∈ (run noDialerEnv proxyArgs).trace, ev.isNetworkStep = false) :=
  ⟨((config_error_before_network exampleEnv emptyCountryArgs).1 (Or.inl rfl)).2,
   ((config_error_before_network exampleEnv exclusiveArgs).1
      (Or.inr ⟨by decide, by decide⟩)).2,
   (config_error_before_network badURLEnv proxyArgs).2.1 (by decide) (by decide) rfl
      (by decide) "missing protocol scheme" rfl,
   (config_error_before_network noDialerEnv proxyArgs).2.2 (by decide) (by decide) rfl
      (by decide) { Scheme := "socks5", Host := "socks5://10.0.0.1:1080" } "unknown scheme"
      rfl rfl⟩

/-- C8: with no fixed API address and a bootstrap resolver configured, once the
base dialer is built and the resolver constructed, an empty `ResolveA` result
makes `run` return 14 with no API client constructed and no API call made; a
non-empty result makes `run` build the fixed-host dialer on its first address
and hand the API client a transport dialing through it; and with a fixed API
address configured no run constructs or queries the resolver. -/
theorem bootstrap_resolution_decides_api_address (env : Env) (args : CLIArgs) :
    (∀ (t1 : List Event) (dialer : ContextDialer) (resolver : Resolver),
      args.country ≠ "" → args.showVersion = false →
      args.apiAddress = "" → args.bootstrapDNS ≠ "" →
      run_baseProxy env args ContextDialer.netDialer = Except.ok (t1, dialer) →
      env.NewResolver args.bootstrapDNS args.timeout = Except.ok resolver →
      resolver.ResolveA API_DOMAIN = [] →
        (run env args).outcome = Outcome.returned 14 ∧
        Event.ResolveA API_DOMAIN ∈ (run env args).trace ∧
        ∀ ev ∈ (run env args).trace, ev.isClientStep = false) ∧
    (∀ (t1 : List Event) (dialer : ContextDialer) (resolver : Resolver)
        (apiAddress : String) (rest : List String),
      args.country ≠ "" → args.showVersion = false →
      args.apiAddress = "" → args.bootstrapDNS ≠ "" →
      run_baseProxy env args ContextDialer.netDialer = Except.ok (t1, dialer) →
      env.NewResolver args.bootstrapDNS args.timeout = Except.ok resolver →
      resolver.ResolveA API_DOMAIN = apiAddress :: rest →
        Event.NewFixedDialer apiAddress dialer ∈ (run env args).trace ∧
        Event.NewVEClient (some (RoundTripper.custom
          (run_transport (ContextDialer.fixedDialer apiAddress dialer)))) ∈
            (run env args).trace) ∧
    (args.apiAddress ≠ "" → ∀ ev ∈ (run env args).trace, ev.isResolverStep = false) := by
  refine ⟨?_, ?_, ?_⟩
  · intro t1 dialer resolver hc hv ha hb hbp hr he
    have hpa : parse_args args = Except.ok args := by simp [parse_args, hc, ha]
    have hapi : run_apiAddress env args dialer = Except.error
        { trace := [Event.NewResolver args.bootstrapDNS args.timeout,
            Event.log Level.Info "Discovering API IP address..." [],
            Event.ResolveA API_DOMAIN,
            Event.log Level.Critical "Unable to resolve %s with specified bootstrap DNS"
              [API_DOMAIN]],
          outcome := Outcome.returned 14 } := by
      simp [run_apiAddress, ha, hb, hr, he]
    have h1 : t1.all (fun ev => !ev.isClientStep) = true := by
      rcases run_baseProxy_ok hbp with ⟨_, rfl, _⟩ | ⟨_, _, _, _, rfl⟩ <;>
        simp [Event.isClientStep]
    have hrun : run env args =
        { trace := Event.log Level.Info "client version %s is starting..." [env.version] ::
            (t1 ++ [Event.NewResolver args.bootstrapDNS args.timeout,
              Event.log Level.Info "Discovering API IP address..." [],
              Event.ResolveA API_DOMAIN,
              Event.log Level.Critical "Unable to resolve %s with specified bootstrap DNS"
                [API_DOMAIN]]),
          outcome := Outcome.returned 14 } := by
      simp [run, hpa, hv, hbp, hapi]
    rw [hrun]
    refine ⟨rfl, by simp, ?_⟩
    have hall : (Event.log Level.Info "client version %s is starting..." [env.version] ::
            (t1 ++ [Event.NewResolver args.bootstrapDNS args.timeout,
              Event.log Level.Info "Discovering API IP address..." [],
              Event.ResolveA API_DOMAIN,
              Event.log Level.Critical "Unable to resolve %s with specified bootstrap DNS"
                [API_DOMAIN]])).all (fun ev => !ev.isClientStep) = true := by
      simp only [List.all_cons, List.all_append, List.all_nil, h1]
      rfl
    intro ev hev
    have := List.all_eq_true.mp hall ev hev
    simpa using this
  · intro t1 dialer resolver apiAddress rest hc hv ha hb hbp hr he
    have hpa : parse_args args = Except.ok args := by simp [parse_args, hc, ha]
    have hapi : run_apiAddress env args dialer = Except.ok
        ([Event.NewResolver args.bootstrapDNS args.timeout,
            Event.log Level.Info "Discovering API IP address..." [],
            Event.ResolveA API_DOMAIN,
            Event.log Level.Info "Discovered address of API host = %s" [apiAddress],
            Event.NewFixedDialer apiAddress dialer],
          ContextDialer.fixedDialer apiAddress dialer) := by
      simp [run_apiAddress, ha, hb, hr, he]
    have hmem := run_trace_contains_api_stage env args t1 _ dialer _ hpa hv hbp hapi
    exact ⟨hmem _ (Or.inl (by simp)), hmem _ (Or.inr rfl)⟩
  · intro ha ev hev
    have := List.all_eq_true.mp (run_trace_all_not_resolver env args ha) ev hev
    simpa using this

/-- Witness for C8: a resolver that finds nothing, one that finds
`[10.0.0.1, 10.0.0.2]`, and a fixed address. -/
theorem bootstrap_resolution_decides_api_address_witness :
    ((run emptyResolverEnv bootstrapArgs).outcome = Outcome.returned 14 ∧
      Event.ResolveA API_DOMAIN ∈ (run emptyResolverEnv bootstrapArgs).trace ∧
      ∀ ev ∈ (run emptyResolverEnv bootstrapArgs).trace, ev.isClientStep = false) ∧
    (Event.NewFixedDialer "10.0.0.1" ContextDialer.netDialer ∈
        (run exampleEnv bootstrapArgs).trace ∧
      Event.NewVEClient (some (RoundTripper.custom
        (run_transport (ContextDialer.fixedDialer "10.0.0.1" ContextDialer.netDialer)))) ∈
          (run exampleEnv bootstrapArgs).trace) ∧
    (∀ ev ∈ (run exampleEnv fixedAddressArgs).trace, ev.isResolverStep = false) :=
  ⟨(bootstrap_resolution_decides_api_address emptyResolverEnv bootstrapArgs).1
      [] ContextDialer.netDialer emptyResolver (by decide) rfl rfl (by decide) rfl rfl rfl,
   (bootstrap_resolution_decides_api_address exampleEnv bootstrapArgs).2.1
      [] ContextDialer.netDialer exampleResolver "10.0.0.1" ["10.0.0.2"]
      (by decide) rfl rfl (by decide) rfl rfl rfl,
   (bootstrap_resolution_decides_api_address exampleEnv fixedAddressArgs).2.2 (by decide)⟩

/-- C9 (defect of the code): a startup failure of the API exchange does not
make `run` return a status. With every other step succeeding, when the HTTP
exchange of the device registration fails, or that of the initial discovery,
or that of the region listing, the client call panics on `Errors[0]` of the
unpopulated response and `run` ends in that panic: it returns neither 10, 12
nor 11, nor any other status. -/
theorem run_panics_on_api_transport_failure (err : GoError) :
    (run (registerDownEnv err) CLIArgs.defaults).outcome
      = Outcome.panicked PanicSite.errorsIndex ∧
    (run (discoverDownEnv err) CLIArgs.defaults).outcome
      = Outcome.panicked PanicSite.errorsIndex ∧
    (run (geoListDownEnv err) listCountriesArgs).outcome
      = Outcome.panicked PanicSite.errorsIndex ∧
    (∀ s, (run (registerDownEnv err) CLIArgs.defaults).outcome ≠ Outcome.returned s) ∧
    (∀ s, (run (discoverDownEnv err) CLIArgs.defaults).outcome ≠ Outcome.returned s) ∧
    (∀ s, (run (geoListDownEnv err) listCountriesArgs).outcome ≠ Outcome.returned s) := by
  have h1 : (run (registerDownEnv err) CLIArgs.defaults).outcome
      = Outcome.panicked PanicSite.errorsIndex := rfl
  have h2 : (run (discoverDownEnv err) CLIArgs.defaults).outcome
      = Outcome.panicked PanicSite.errorsIndex := rfl
  have h3 : (run (geoListDownEnv err) listCountriesArgs).outcome
      = Outcome.panicked PanicSite.errorsIndex := rfl
  refine ⟨h1, h2, h3, ?_, ?_, ?_⟩
  · intro s
    rw [h1]
    simp
  · intro s
    rw [h2]
    simp
  · intro s
    rw [h3]
    simp

/-- C10: indexing the address list is guarded wherever `run` does it. `NetAddr`
returns a value for every endpoint with a non-empty address list; no run of
`run` ends in an index panic of `NetAddr` or of `ips.Addresses[0]`; and no
call of the refresh callback ends in one. -/
theorem address_indexing_is_guarded :
    (∀ e : VEIPEntry, e.Addresses ≠ [] → ∃ addr, e.NetAddr = GoResult.returned addr) ∧
    (∀ (env : Env) (args : CLIArgs),
      (run env args).outcome ≠ Outcome.panicked PanicSite.netAddrIndex ∧
      (run env args).outcome ≠ Outcome.panicked PanicSite.addressesIndex) ∧
    (∀ (args : CLIArgs) (c : VEClient) (world : Request → HTTPOutcome VEDiscoverResponse),
      (refreshCallback args c world).2.2 ≠ GoResult.panicked PanicSite.netAddrIndex ∧
      (refreshCallback args c world).2.2 ≠ GoResult.panicked PanicSite.addressesIndex) := by
  refine ⟨?_, ?_, ?_⟩
  · intro e he
    rcases hA : e.Addresses with _ | ⟨a, rest⟩
    · exact absurd hA he
    · exact ⟨_, NetAddr_cons e a rest hA⟩
  · intro env args
    unfold run
    split
    · simp
    rename_i args1 _
    split
    · simp
    simp only
    split
    · rename_i r hr
      rcases run_baseProxy_error hr with
        ⟨_, ⟨_, _, rfl⟩ | ⟨_, _, _, _, rfl⟩ | ⟨_, _, _, rfl⟩⟩ <;> simp
    rename_i t1 dialer _
    split
    · rename_i r hr
      rcases run_apiAddress_error hr with ⟨_, _, ⟨_, _, rfl⟩ | ⟨_, _, _, rfl⟩⟩ <;> simp
    rename_i t2 veclientDialer _
    split
    · simp
    rename_i veclient _
    rcases RegisterDevice_cases veclient env.registerWorld with h | ⟨err, h⟩ | ⟨token, h⟩
    · rw [h]; simp
    · rw [h]; simp
    rw [h]
    simp only
    split
    · rcases printCountries_outcome env args1.timeout { veclient with AccessToken := token }
        with ho | ho | ho <;> simp [ho]
    rcases Discover_cases { veclient with AccessToken := token } args1.country
      env.discoverWorld with h | ⟨err, h⟩ | ⟨ips, h⟩
    · rw [h]; simp
    · rw [h]; simp
    rw [h]
    simp only
    split
    · simp
    rename_i hlen
    split
    · rename_i r hr
      simp [(run_caPool_error hr).1]
    rename_i t3 caPool _
    rcases hA : ips.Addresses with _ | ⟨a, rest⟩
    · simp [hA] at hlen
    rw [NetAddr_cons ips a rest hA]
    simp only
    split
    · simp
    · simp
  · intro args c world
    unfold refreshCallback
    rcases Discover_cases c args.country world with h | ⟨err, h⟩ | ⟨ips, h⟩
    · rw [h]; simp
    · rw [h]; simp
    · rw [h]
      simp only
      split
      · simp
      · rename_i hlen
        rcases hA : ips.Addresses with _ | ⟨a, rest⟩
        · simp [hA] at hlen
        · rw [NetAddr_cons ips a rest hA]
          simp

/-- Witness for C10: the endpoint of the scenario. -/
theorem address_indexing_is_guarded_witness :
    ∃ addr, exampleEndpoint.NetAddr = GoResult.returned addr :=
  address_indexing_is_guarded.1 exampleEndpoint (by decide)

/-! ## The country list -/

/-- What `printCountries` does, by the outcome of `GeoList`. For every list that
`GeoList` returns it writes the header row (`country code`, `country name`),
then one row (region, name) for each entry whose `ProxyType` is 0, in the
order of the list, and nothing for the other entries, flushes the writer and
returns 0; when `GeoList` returns an error value it writes no row and returns
11; when `GeoList` panics no row is written and no status is returned. -/
theorem printCountries_writes_free_countries (env : Env) (timeout : Int) (veclient : VEClient) :
    (∀ list, (veclient.GeoList env.geoListWorld).2 = GoResult.returned (Except.ok list) →
      csvRecords (printCountries env timeout veclient).trace
        = ["country code", "country name"] :: countryRows list ∧
      (printCountries env timeout veclient).trace
        = [Event.GeoList, Event.csvWrite ["country code", "country name"]] ++
            (countryRows list).map Event.csvWrite ++ [Event.csvFlush] ∧
      (printCountries env timeout veclient).outcome = Outcome.returned 0) ∧
    (∀ err, (veclient.GeoList env.geoListWorld).2 = GoResult.returned (Except.error err) →
      csvRecords (printCountries env timeout veclient).trace = [] ∧
      (printCountries env timeout veclient).outcome = Outcome.returned 11) ∧
    (∀ site, (veclient.GeoList env.geoListWorld).2 = GoResult.panicked site →
      csvRecords (printCountries env timeout veclient).trace = [] ∧
      (printCountries env timeout veclient).outcome = Outcome.panicked site) := by
  unfold printCountries
  rcases GeoList_cases veclient env.geoListWorld with h | ⟨err, h⟩ | ⟨list, h⟩
  · rw [h]
    refine ⟨?_, ?_, ?_⟩
    · intro list hl
      simp at hl
    · intro err hl
      simp at hl
    · intro site hs
      simp only [GoResult.panicked.injEq] at hs
      subst hs
      exact ⟨rfl, rfl⟩
  · rw [h]
    refine ⟨?_, ?_, ?_⟩
    · intro list hl
      simp at hl
    · intro err1 hl
      exact ⟨rfl, rfl⟩
    · intro site hs
      simp at hs
  · rw [h]
    refine ⟨?_, ?_, ?_⟩
    · intro list1 hl
      simp only [GoResult.returned.injEq, Except.ok.injEq] at hl
      subst hl
      refine ⟨?_, ?_, rfl⟩
      · simp only [csvRecords_append, csvRecords_country_loop]
        simp [csvRecords]
      · simp only [country_loop_eq_map]
    · intro err hl
      simp at hl
    · intro site hs
      simp at hs

/-- Example of the rows of `printCountries`: a list with two free entries
around an entry of proxy type 1, an API server that refuses the listing, and
one whose HTTP exchange fails. -/
theorem printCountries_writes_free_countries_witness :
    (csvRecords (printCountries geoListEnv 10 exampleClient).trace
        = [["country code", "country name"], ["nl", "Netherlands"], ["de", "Germany"]] ∧
      (printCountries geoListEnv 10 exampleClient).outcome = Outcome.returned 0) ∧
    (csvRecords (printCountries geoListRefusedEnv 10 exampleClient).trace = [] ∧
      (printCountries geoListRefusedEnv 10 exampleClient).outcome = Outcome.returned 11) ∧
    csvRecords (printCountries (geoListDownEnv "timeout") 10 exampleClient).trace = [] :=
  ⟨⟨((printCountries_writes_free_countries geoListEnv 10 exampleClient).1
        exampleGeos rfl).1,
     ((printCountries_writes_free_countries geoListEnv 10 exampleClient).1
        exampleGeos rfl).2.2⟩,
   (printCountries_writes_free_countries geoListRefusedEnv 10 exampleClient).2.1
     "API responded with error message: msg=\"token expired\"" rfl,
   ((printCountries_writes_free_countries (geoListDownEnv "timeout") 10 exampleClient).2.2
     PanicSite.errorsIndex rfl).1⟩

/-- C11 (defect of the code): when `GeoList` fails because its HTTP exchange
fails, or because the response cannot be decoded and the response structure
stays unpopulated, `printCountries` does not return 11. `GeoList` reads
`geoListRes.Errors[0]` of the empty list before it looks at `err` and panics;
`printCountries` ends in that panic after the call, with no row written and
no status returned. -/
theorem printCountries_panics_when_GeoList_exchange_fails (env : Env) (timeout : Int)
    (veclient : VEClient) (err : GoError) :
    printCountries (withGeoListWorld env (fun _ => HTTPOutcome.doError err)) timeout veclient
      = ({ trace := [Event.GeoList], outcome := Outcome.panicked PanicSite.errorsIndex } :
          RunResult) ∧
    (∀ s, (printCountries (withGeoListWorld env (fun _ => HTTPOutcome.doError err))
      timeout veclient).outcome ≠ Outcome.returned s) ∧
    csvRecords (printCountries (withGeoListWorld env (fun _ => HTTPOutcome.doError err))
      timeout veclient).trace = [] ∧
    (∀ (StatusCode : Nat) (Status Header : String),
      printCountries (withGeoListWorld env (fun _ => HTTPOutcome.response StatusCode Status
          Header VEGeoListResponse.zero (some err))) timeout veclient
        = ({ trace := [Event.GeoList], outcome := Outcome.panicked PanicSite.errorsIndex } :
            RunResult)) := by
  have h1 : printCountries (withGeoListWorld env (fun _ => HTTPOutcome.doError err)) timeout
      veclient = ({ trace := [Event.GeoList],
                    outcome := Outcome.panicked PanicSite.errorsIndex } : RunResult) := by
    simp [printCountries, withGeoListWorld, VEClient.GeoList, VEClient.rpcCall,
      VEGeoListResponse.zero]
  refine ⟨h1, ?_, ?_, ?_⟩
  · intro s
    rw [h1]
    simp
  · rw [h1]
    rfl
  · intro StatusCode Status Header
    simp [printCountries, withGeoListWorld, VEClient.GeoList, VEClient.rpcCall,
      VEGeoListResponse.zero]

end VeepnProxy
